import Mathlib

/-!
Verification development for the arlcleaner raster-conversion pipeline.

The Python sources (`sid_convert.py`, `tiff_convert.py`, `convert.py`,
`config.py`) are shallowly embedded below.  External collaborators
(GDAL subprocesses, the GDAL python bindings, the file system and the
regular-expression engine) are modelled as explicit environment records
of pure functions; every side effect of a pipeline run is recorded in an
explicit event trace, and Python exceptions are modelled with `Except`.
-/

namespace Arl

/-! ## Path helpers (os.path.basename / dirname / splitext / join) -/

/-- Model of `os.path.basename`: the final path component. -/
def basename (p : String) : String :=
  String.mk ((p.data.reverse.takeWhile (fun c => c ≠ '/')).reverse)

/-- Model of `os.path.dirname`: everything before the final component. -/
def dirname (p : String) : String :=
  let ds := p.data
  let tail := (ds.reverse.takeWhile (fun c => c ≠ '/')).length
  if tail = ds.length then "" else String.mk (ds.take (ds.length - tail - 1))

/-- Model of `os.path.splitext(...)[0]` on a single file name: the part
before the last dot, where leading dots do not count as an extension
separator (CPython rule). -/
def splitextStem (n : String) : String :=
  let cs := n.data
  let lead := (cs.takeWhile (fun c => c = '.')).length
  let rest := cs.drop lead
  if rest.any (fun c => c = '.') then
    let extLen := (rest.reverse.takeWhile (fun c => c ≠ '.')).length
    String.mk (cs.take (cs.length - extLen - 1))
  else n

/-- Model of `os.path.join` for the relative second arguments used here. -/
def pathJoin (a b : String) : String := a ++ "/" ++ b

/-- Model of `str.lower` (the inputs of interest are ASCII). -/
def pyLower (s : String) : String := String.mk (s.data.map Char.toLower)

/-- Model of `str.endswith`. -/
def strEndsWith (s t : String) : Bool :=
  let a := s.data
  let b := t.data
  b == a.drop (a.length - b.length)

/-- Model of `str.startswith`. -/
def strStartsWith (s t : String) : Bool :=
  t.data == s.data.take t.data.length

/-! ## Configuration (`config.py`)

The module keeps plain module-level attributes.  Attributes that some
code reads but that `config.py` does not define are modelled as `Option`
fields holding `none` in the shipped configuration: reading such an
attribute with plain attribute access raises `AttributeError`, while
`getattr(config, "BBOX_CHECK", True)` supplies a default. -/

structure Config where
  ERROR_LOGS : String
  FAILED_PROCESSING : String
  JPEG_QUALITY : Nat
  SID_TILE_WIDTH : Nat
  SID_TILE_HEIGHT : Nat
  TARGET_EPSG : Option Int
  BBOX_CHECK : Option Bool
deriving DecidableEq, Repr

/-- The configuration exactly as `config.py` ships it: no `TARGET_EPSG`
and no `BBOX_CHECK` attribute is defined. -/
def shippedConfig : Config :=
  { ERROR_LOGS := "/mnt/rawdata/pyarl/ErrorLogs"
    FAILED_PROCESSING := "/mnt/rawdata/pyarl/FailedProcessing"
    JPEG_QUALITY := 90
    SID_TILE_WIDTH := 5000
    SID_TILE_HEIGHT := 5000
    TARGET_EPSG := none
    BBOX_CHECK := none }

/-! ## gdalinfo metadata and bounding boxes -/

/-- The `coordinateSystem` sub-dictionary of a `gdalinfo -json` result.
The `epsg` entry is an integer when present; Python truthiness makes a
`0` entry behave like an absent one. -/
structure CoordinateSystem where
  epsg : Option Int := none
  wkt : Option String := none
deriving DecidableEq, Repr

/-- The `cornerCoordinates` sub-dictionary: the four corners consulted by
`_bbox_from_info`. -/
structure Corners where
  upperLeft : Option (ℚ × ℚ) := none
  lowerLeft : Option (ℚ × ℚ) := none
  upperRight : Option (ℚ × ℚ) := none
  lowerRight : Option (ℚ × ℚ) := none
deriving DecidableEq, Repr

/-- The slice of a `gdalinfo -json` dictionary the pipelines read. -/
structure GdalInfo where
  coordinateSystem : Option CoordinateSystem := none
  cornerCoordinates : Option Corners := none
  size : Option (Nat × Nat) := none
deriving DecidableEq, Repr

/-- A geographic bounding box `(minx, miny, maxx, maxy)`. -/
structure BBox where
  minx : ℚ
  miny : ℚ
  maxx : ℚ
  maxy : ℚ
deriving DecidableEq, Repr

/-- Embedding of `_bbox_from_info`: gather the corner coordinates that
are present and take coordinate-wise min/max; `None` when no corner is
available. -/
def bboxFromInfo (info : GdalInfo) : Option BBox :=
  match info.cornerCoordinates with
  | none => none
  | some corners =>
    let pts := [corners.upperLeft, corners.lowerLeft,
                corners.upperRight, corners.lowerRight].filterMap id
    match pts with
    | [] => none
    | p :: rest =>
      let xs := (p :: rest).map Prod.fst
      let ys := (p :: rest).map Prod.snd
      some { minx := xs.foldl min p.1, miny := ys.foldl min p.2
             maxx := xs.foldl max p.1, maxy := ys.foldl max p.2 }

/-- Embedding of `_bbox_valid` (identical in all three modules): when the
`BBOX_CHECK` attribute is absent, `getattr` defaults it to `True`. -/
def bboxValid (cfg : Config) (b : BBox) : Bool :=
  if (cfg.BBOX_CHECK.getD true) = false then true
  else if b.minx < -170 ∨ b.maxx > -50 ∨ b.miny < 15 ∨ b.maxy > 75 then false
  else if 1 ≤ b.maxx - b.minx ∨ 1 ≤ b.maxy - b.miny then false
  else true

/-- The combined check `bbox and _bbox_valid(bbox)` used by all callers:
a missing box never passes. -/
def passes (cfg : Config) (info : GdalInfo) : Bool :=
  match bboxFromInfo info with
  | none => false
  | some b => bboxValid cfg b

/-! ## CRS resolution (`_extract_epsg`, identical in the three modules)

External pieces of the resolver are abstracted into `CrsEnv`:

* `reAuthority s` models the first `re.search` over `s` for
  an EPSG AUTHORITY node inside well-known text;
* `reEpsgColon s` models the second `re.search` for a literal
  EPSG-colon-digits occurrence;
* `direct path` models the block that opens the raster with the GDAL
  object model and queries authority codes;
* `sidecar p` models existence plus parsing of the sidecar file `p`.
-/

/-- Outcome of the direct GDAL object-model inspection of one raster:
the authority codes read for the PROJCS, GEOGCS and unscoped nodes, the
code obtained after `AutoIdentifyEPSG`, whether `gdal.Open` yielded a
dataset, and whether the block raised (any exception in it is swallowed
and resolution falls through to the sidecar sources). -/
structure DirectInspection where
  raised : Bool := false
  opened : Bool := false
  projcs : Option Int := none
  geogcs : Option Int := none
  unscoped : Option Int := none
  autoCode : Option Int := none
deriving DecidableEq, Repr

/-- What the sidecar loop finds at one candidate sidecar path. -/
inductive SidecarData where
  /-- XML parsed: the text of a WKID tag, of a LatestWKID tag, and of a
  WKT tag, when found. -/
  | parsed (wkid latestWkid wktText : Option String)
  /-- `ET.ParseError`: the handler re-reads the raw file content. -/
  | parseError (content : String)
  /-- Any other exception while handling this sidecar: swallowed. -/
  | otherError
deriving DecidableEq, Repr

structure CrsEnv where
  reAuthority : String → Option Int
  reEpsgColon : String → Option Int
  direct : String → DirectInspection
  sidecar : String → Option SidecarData

/-- Model of `str.isdigit` for the ASCII digits that matter here. -/
def pyIsDigit (s : String) : Bool :=
  decide (s.length ≠ 0) && s.data.all Char.isDigit

/-- Value of an all-digits string, as `int(...)` computes it. -/
def digitsToInt (s : String) : Int :=
  Int.ofNat (s.data.foldl (fun acc c => acc * 10 + (c.toNat - 48)) 0)

/-- The node loop `for node in ("PROJCS", "GEOGCS", None)` of source 2:
return the first code that is present and differs from 7019; a missing
code or a 7019 moves on to the next node. -/
def firstValid : List (Option Int) → Option Int
  | [] => none
  | none :: rest => firstValid rest
  | some v :: rest => if v ≠ 7019 then some v else firstValid rest

/-- Source-2 selection: the node loop over PROJCS, GEOGCS and the
unscoped node, then, after `AutoIdentifyEPSG`, the unscoped code if
present and not 7019. -/
def directResult (d : DirectInspection) : Option Int :=
  if d.raised ∨ ¬ d.opened then none
  else
    match firstValid [d.projcs, d.geogcs, d.unscoped] with
    | some v => some v
    | none =>
      match d.autoCode with
      | some v => if v ≠ 7019 then some v else none
      | none => none

/-- Source-3 examination of one sidecar file. -/
def sidecarResult (env : CrsEnv) (data : SidecarData) : Option Int :=
  match data with
  | .parsed wkid latestWkid wktText =>
    let tagVal : Option String → Option Int := fun t =>
      match t with
      | some s => if s ≠ "" ∧ pyIsDigit s then some (digitsToInt s) else none
      | none => none
    match tagVal wkid with
    | some v => some v
    | none =>
      match tagVal latestWkid with
      | some v => some v
      | none =>
        match wktText with
        | some t => if t ≠ "" then env.reAuthority t else none
        | none => none
  | .parseError content =>
    match env.reAuthority content with
    | some v => some v
    | none => env.reEpsgColon content
  | .otherError => none

/-- The three sidecar paths probed, in order. -/
def sidecarPaths (path : String) : List String :=
  let stem := if dirname path = "" then splitextStem (basename path)
              else pathJoin (dirname path) (splitextStem (basename path))
  [stem ++ ".aux.xml", stem ++ ".prj", path ++ ".aux.xml"]

/-- Walk the sidecar candidates, stopping at the first that yields a
code (absent files and fruitless files are skipped). -/
def sidecarScan (env : CrsEnv) : List String → Option Int
  | [] => none
  | p :: rest =>
    match env.sidecar p with
    | none => sidecarScan env rest
    | some data =>
      match sidecarResult env data with
      | some v => some v
      | none => sidecarScan env rest

/-- Embedding of `_extract_epsg(info, path)`.  Source 1 is the
structured metadata (`coordinateSystem.epsg`, then the WKT regexes),
source 2 the direct GDAL inspection, source 3 the sidecar files. -/
def extractEpsg (env : CrsEnv) (info : GdalInfo) (path : Option String) : Option Int :=
  let cs := info.coordinateSystem.getD {}
  match cs.epsg with
  | some e =>
    if e ≠ 0 then some e
    else extractEpsgWkt env cs path
  | none => extractEpsgWkt env cs path
where
  /-- Continuation after the `epsg` field: the WKT regexes, then the
  path-based sources. -/
  extractEpsgWkt (env : CrsEnv) (cs : CoordinateSystem) (path : Option String) : Option Int :=
    match cs.wkt with
    | some w =>
      if w ≠ "" then
        match env.reAuthority w with
        | some v => some v
        | none =>
          match env.reEpsgColon w with
          | some v => some v
          | none => extractEpsgPath env path
      else extractEpsgPath env path
    | none => extractEpsgPath env path
  /-- Sources 2 and 3, both guarded by the presence of a path. -/
  extractEpsgPath (env : CrsEnv) (path : Option String) : Option Int :=
    match path with
    | none => none
    | some p =>
      match directResult (env.direct p) with
      | some v => some v
      | none => sidecarScan env (sidecarPaths p)

/-- Embedding of `_validate_epsg` in `sid_convert.py`: 7019 is the sole
rejected code. -/
def validateEpsg (e : Int) : Bool := decide (e ≠ 7019)

/-- The value of `epsg` that `process_sid` works with after lines
212-214: the extracted code, demoted to `None` when `_validate_epsg`
rejects it. -/
def sidResolvedEpsg (env : CrsEnv) (info : GdalInfo) (path : Option String) : Option Int :=
  match extractEpsg env info path with
  | some e => if validateEpsg e then some e else none
  | none => none

/-! ## Side-effect traces and Python exceptions

Each pipeline run produces a trace of the side effects it performed in
order.  A raised-and-uncaught Python exception is an `Except.error`. -/

inductive PyErr where
  | valueError (msg : String)
  | attributeError (name : String)
  | runtimeError (msg : String)
  | engineError (msg : String)
deriving DecidableEq, Repr

/-- The text `str(exc)` used when an exception is logged. -/
def pyErrMsg : PyErr → String
  | .valueError m => m
  | .runtimeError m => m
  | .engineError m => m
  | .attributeError n => "module config has no attribute " ++ n

inductive Event where
  /-- `os.makedirs(dir, exist_ok=True)`. -/
  | mkdirs (dir : String)
  /-- Appending one line to an error-log file. -/
  | logAppend (path line : String)
  /-- A successful `shutil.copy2` into the failed-processing directory. -/
  | copyToFailed (name : String)
  /-- A successful full-image `gdal_translate`/`gdal.Translate` to JPEG. -/
  | runTranslate (src dst : String) (quality : Nat)
  /-- A successful windowed `gdal_translate -srcwin` producing one tile. -/
  | runTranslateWin (src dst : String) (xoff yoff w h : Nat)
  /-- Creation of an intermediate raster (warp or corrective translate). -/
  | makeRaster (dst : String)
  /-- A successful `os.remove`. -/
  | removeFile (path : String)
  /-- Removal of a whole directory tree. -/
  | rmtree (dir : String)
  /-- The `.tfwx` to `.tfw` sidecar copy of `_ensure_worldfile`. -/
  | copyWorldfile (src dst : String)
  /-- A `shutil.move`. -/
  | moveFile (src dst : String)
  /-- `process_tiff` entering `_secondary_process`. -/
  | secondaryAttempt
deriving DecidableEq, Repr

abbrev Trace := List Event

/-- File-system facts a run consults. -/
structure FsEnv where
  /-- `os.listdir` of a directory. -/
  listdir : String → List String
  /-- Whether `shutil.copy2` of this directory entry succeeds. -/
  copyOk : String → Bool

/-- Embedding of `_log_error`: create the error-log directory, then
append `message + "\n"` to `<ERROR_LOGS>/<base>.log`. -/
def logError (cfg : Config) (base msg : String) : Trace :=
  [.mkdirs cfg.ERROR_LOGS,
   .logAppend (pathJoin cfg.ERROR_LOGS (base ++ ".log")) (msg ++ "\n")]

/-- Embedding of `_move_to_failed`: create the failed-processing
directory, then copy every entry of the input's directory whose name
starts with the input's base name; a failing copy is swallowed. -/
def moveToFailed (cfg : Config) (fs : FsEnv) (src : String) : Trace :=
  let base := splitextStem (basename src)
  .mkdirs cfg.FAILED_PROCESSING ::
    (fs.listdir (dirname src)).filterMap (fun n =>
      if strStartsWith n base then
        (if fs.copyOk n then some (.copyToFailed n) else none)
      else none)

/-- The two quarantine calls the pipelines always make together. -/
def quarantine (cfg : Config) (fs : FsEnv) (base msg src : String) : Trace :=
  logError cfg base msg ++ moveToFailed cfg fs src

/-- Intermediate rasters a trace created. -/
def madeRasters (t : Trace) : List String :=
  t.filterMap (fun e => match e with | .makeRaster d => some d | _ => none)

/-- Files a trace removed. -/
def removedFiles (t : Trace) : List String :=
  t.filterMap (fun e => match e with | .removeFile p => some p | _ => none)

/-- Directory trees a trace removed. -/
def removedTrees (t : Trace) : List String :=
  t.filterMap (fun e => match e with | .rmtree d => some d | _ => none)

/-- Intermediate rasters still existing when the trace ends: created,
never removed, and not inside a removed directory tree. -/
def leftoverRasters (t : Trace) : List String :=
  (madeRasters t).filter (fun f =>
    !(removedFiles t).contains f &&
    !(removedTrees t).any (fun d => strStartsWith f (d ++ "/")))

/-- Number of quarantine invocations a trace holds (each `_log_error`
call appends exactly one line). -/
def quarantineInvocations (t : Trace) : Nat :=
  t.countP (fun e => match e with | .logAppend _ _ => true | _ => false)

/-! ## Tiling (`process_sid` lines 249-278) -/

/-- Ceiling division, the value of `math.ceil(a / b)` on naturals. -/
def cdiv (a b : Nat) : Nat := (a + b - 1) / b

/-- One tile of the grid: 0-based grid position, pixel window and output
file name. -/
structure Tile where
  x : Nat
  y : Nat
  xoff : Nat
  yoff : Nat
  w : Nat
  h : Nat
  name : String
deriving DecidableEq, Repr

/-- The tile the loop body constructs for grid position `(x, y)`. -/
def mkTile (base : String) (Tw Th W H x y : Nat) : Tile :=
  { x := x, y := y, xoff := x * Tw, yoff := y * Th
    w := min Tw (W - x * Tw), h := min Th (H - y * Th)
    name := base ++ "_" ++ toString (x + 1) ++ "_" ++ toString (y + 1) ++ ".jpg" }

/-- The nested `for y in range(ny): for x in range(nx)` loop of
`process_sid`, as the row-major list of tiles it emits. -/
def tilePlan (base : String) (W H Tw Th : Nat) : List Tile :=
  (List.range (cdiv H Th)).flatMap (fun y =>
    (List.range (cdiv W Tw)).map (fun x => mkTile base Tw Th W H x y))

/-- Pixel `(px, py)` lies inside the window of tile `t`. -/
def covers (t : Tile) (px py : Nat) : Bool :=
  decide (t.xoff ≤ px) && decide (px < t.xoff + t.w) &&
  decide (t.yoff ≤ py) && decide (py < t.yoff + t.h)

/-! ## The SID pipeline (`sid_convert.py`) -/

/-- External collaborators of `process_sid`. -/
structure SidEnv where
  crs : CrsEnv
  fs : FsEnv
  /-- `gdalinfo -json` on a path (`subprocess.check_output` may raise). -/
  gdalinfoJson : String → Except PyErr GdalInfo
  /-- `shutil.which("gdal_translate")` is non-None. -/
  whichGdalTranslate : Bool
  /-- Full-image `gdal_translate` to JPEG: src, dst, quality. -/
  translateJpeg : String → String → Nat → Except PyErr Unit
  /-- `gdalwarp`: src, dst, source EPSG (when given), target EPSG. -/
  warp : String → String → Option Int → Int → Except PyErr Unit
  /-- Windowed `gdal_translate -srcwin`: src, dst, xoff, yoff, w, h. -/
  translateTile : String → String → Nat → Nat → Nat → Nat → Except PyErr Unit
  /-- The directory name `tempfile.mkdtemp()` returns for this run. -/
  mkdtemp : String

/-- Embedding of `_convert_to_jpeg` (`dst_name` is always passed by the
callers in `process_sid`). -/
def convertToJpeg (env : SidEnv) (src dstDir dstName : String) (quality : Nat) :
    Except PyErr String × Trace :=
  if env.whichGdalTranslate = false then
    (.error (.runtimeError "gdal_translate not found in PATH"), [])
  else
    match env.translateJpeg src (pathJoin dstDir (dstName ++ ".jpg")) quality with
    | .ok _ =>
      (.ok (pathJoin dstDir (dstName ++ ".jpg")),
       [.mkdirs dstDir, .runTranslate src (pathJoin dstDir (dstName ++ ".jpg")) quality])
    | .error e => (.error e, [.mkdirs dstDir])

/-- Embedding of `_warp_to_target`: reading `config.TARGET_EPSG` raises
`AttributeError` under the shipped configuration. -/
def warpToTarget (cfg : Config) (env : SidEnv) (src dst : String) (srcEpsg : Option Int) :
    Except PyErr Unit × Trace :=
  match cfg.TARGET_EPSG with
  | none => (.error (.attributeError "TARGET_EPSG"), [])
  | some t =>
    match env.warp src dst srcEpsg t with
    | .ok _ => (.ok (), [.makeRaster dst])
    | .error e => (.error e, [])

/-- The guess-candidate list `[4269, 4326, 3857] + [32600 + z for z in
range(10, 20)]`. -/
def guessCandidates : List Int :=
  [4269, 4326, 3857] ++ (List.range' 10 10).map (fun z => (32600 : Int) + Int.ofNat z)

/-- The candidate loop of `_guess_epsg_and_warp`.  A candidate whose
warp or inspection fails is skipped (all exceptions swallowed); its file
is removed if it was created.  The first candidate whose bounding box
validates is returned immediately: neither its file nor the temporary
directory is removed on that path.  Exhaustion removes the directory. -/
def guessLoop (cfg : Config) (env : SidEnv) (src tmpDir base : String) :
    List Int → Option String × Trace
  | [] => (none, [.rmtree tmpDir])
  | cand :: rest =>
    match warpToTarget cfg env src
        (pathJoin tmpDir (base ++ "_guess_" ++ toString cand ++ ".tif")) (some cand) with
    | (.error _, tw) =>
      match guessLoop cfg env src tmpDir base rest with
      | (r, tr) => (r, tw ++ tr)
    | (.ok _, tw) =>
      match env.gdalinfoJson (pathJoin tmpDir (base ++ "_guess_" ++ toString cand ++ ".tif")) with
      | .error _ =>
        match guessLoop cfg env src tmpDir base rest with
        | (r, tr) =>
          (r, tw ++ [.removeFile (pathJoin tmpDir (base ++ "_guess_" ++ toString cand ++ ".tif"))]
                ++ tr)
      | .ok info =>
        if passes cfg info then
          (some (pathJoin tmpDir (base ++ "_guess_" ++ toString cand ++ ".tif")), tw)
        else
          match guessLoop cfg env src tmpDir base rest with
          | (r, tr) =>
            (r, tw ++ [.removeFile (pathJoin tmpDir (base ++ "_guess_" ++ toString cand ++ ".tif"))]
                  ++ tr)

/-- Embedding of `_guess_epsg_and_warp`. -/
def guessEpsgAndWarp (cfg : Config) (env : SidEnv) (src : String) :
    Option String × Trace :=
  guessLoop cfg env src env.mkdtemp (splitextStem (basename src)) guessCandidates

/-- The tile-emission loop: each tile is one `gdal_translate -srcwin`
run through `_run`, whose `CalledProcessError` aborts the loop. -/
def emitTiles (env : SidEnv) (src outdir : String) :
    List Tile → Except PyErr (List String) × Trace
  | [] => (.ok [], [])
  | t :: rest =>
    match env.translateTile src (pathJoin outdir t.name) t.xoff t.yoff t.w t.h with
    | .error e => (.error e, [])
    | .ok _ =>
      match emitTiles env src outdir rest with
      | (.ok ds, tr) =>
        (.ok (pathJoin outdir t.name :: ds),
         .runTranslateWin src (pathJoin outdir t.name) t.xoff t.yoff t.w t.h :: tr)
      | (.error e, tr) =>
        (.error e, .runTranslateWin src (pathJoin outdir t.name) t.xoff t.yoff t.w t.h :: tr)

/-- Result of the big `try` body of `process_sid`, together with the
trace it produced and the `tmp_files` list accumulated for the
`finally` clause. -/
structure BodyOut where
  result : Except PyErr (List String)
  trace : Trace
  tmps : List String
deriving Repr

/-- Lines 238-278 of `process_sid`: re-inspect `src`, validate its
bounding box, read the raster size, then emit the tile grid. -/
def sidTileStage (cfg : Config) (env : SidEnv) (src outdir base : String)
    (tmps : List String) : BodyOut :=
  match env.gdalinfoJson src with
  | .error e => ⟨.error e, [], tmps⟩
  | .ok info =>
    if passes cfg info = false then
      ⟨.error (.runtimeError "invalid bbox after warp"), [], tmps⟩
    else
      let wh := info.size.getD (0, 0)
      if wh.1 = 0 ∨ wh.2 = 0 then ⟨.error (.runtimeError "missing raster size"), [], tmps⟩
      else
        match emitTiles env src outdir
            (tilePlan base wh.1 wh.2 cfg.SID_TILE_WIDTH cfg.SID_TILE_HEIGHT) with
        | (.ok ds, te) => ⟨.ok ds, .mkdirs outdir :: te, tmps⟩
        | (.error e, te) => ⟨.error e, .mkdirs outdir :: te, tmps⟩

/-- The big `try` body of `process_sid` (lines 218-278), branching on
the resolved CRS. -/
def sidBody (cfg : Config) (env : SidEnv) (path outdir base : String)
    (epsg : Option Int) : BodyOut :=
  match epsg with
  | none =>
    match convertToJpeg env path outdir base 60 with
    | (.error e, t) => ⟨.error e, t, []⟩
    | (.ok dst, t) =>
      match env.gdalinfoJson dst with
      | .error e => ⟨.error e, t, []⟩
      | .ok info =>
        if passes cfg info then ⟨.ok [dst], t, []⟩
        else
          match guessEpsgAndWarp cfg env path with
          | (some g, tg) =>
            match convertToJpeg env g outdir base 60 with
            | (.error e, t2) => ⟨.error e, t ++ tg ++ t2, []⟩
            | (.ok dst2, t2) => ⟨.ok [dst2], t ++ tg ++ t2, []⟩
          | (none, tg) =>
            ⟨.error (.runtimeError "could not determine EPSG for SID"), t ++ tg, []⟩
  | some e =>
    match cfg.TARGET_EPSG with
    | none => ⟨.error (.attributeError "TARGET_EPSG"), [], []⟩
    | some t =>
      if e ≠ t then
        let tmp := pathJoin outdir (base ++ "_warp.tif")
        match warpToTarget cfg env path tmp (some e) with
        | (.error er, tw) => ⟨.error er, tw, []⟩
        | (.ok _, tw) =>
          let s := sidTileStage cfg env tmp outdir base [tmp]
          ⟨s.result, tw ++ s.trace, s.tmps⟩
      else
        sidTileStage cfg env path outdir base []

/-- What a `process_sid` call amounts to: its return value (or the
exception it raises) and the side effects it performed. -/
structure SidOutcome where
  result : Except PyErr (List String)
  trace : Trace
deriving Repr

/-- The `except`/`finally` tail of `process_sid`: a normal body result
is returned after the `finally` removals of the `tmp_files`; an
exception is quarantined first (the handler runs before `finally`) and
turned into an empty tile list. -/
def sidFinish (cfg : Config) (env : SidEnv) (path base : String) (b : BodyOut) : SidOutcome :=
  match b.result with
  | .ok tiles => ⟨.ok tiles, b.trace ++ b.tmps.map (fun f => .removeFile f)⟩
  | .error e =>
    ⟨.ok [], b.trace ++ quarantine cfg env.fs base (pyErrMsg e) path
               ++ b.tmps.map (fun f => .removeFile f)⟩

/-- Embedding of `process_sid`. -/
def processSid (cfg : Config) (env : SidEnv) (path outdir : String) : SidOutcome :=
  if strEndsWith (pyLower path) ".sid" = false then
    ⟨.error (.valueError ("Expected a .sid file, got: " ++ path)), []⟩
  else
    match env.gdalinfoJson path with
    | .error e =>
      ⟨.ok [], quarantine cfg env.fs (splitextStem (basename path))
                 ("gdalinfo failed: " ++ pyErrMsg e) path⟩
    | .ok info =>
      sidFinish cfg env path (splitextStem (basename path))
        (sidBody cfg env path outdir (splitextStem (basename path))
          (sidResolvedEpsg env.crs info (some path)))

/-! ## The TIFF pipeline (`tiff_convert.py`) -/

/-- Model of `Path(p).with_suffix("")`: the path without its final
extension. -/
def stemPath (p : String) : String :=
  let d := dirname p
  let b := splitextStem (basename p)
  if d = "" then b else pathJoin d b

/-- External collaborators of `process_tiff`. -/
structure TiffEnv where
  crs : CrsEnv
  fs : FsEnv
  /-- `gdal.Info(path, format="json")` (on inputs and produced JPEGs). -/
  gdalInfo : String → Except PyErr GdalInfo
  /-- Existence of a `.tfwx` sidecar at the given path. -/
  tfwxExists : String → Bool
  /-- Existence of a `.tfw` sidecar at the given path. -/
  tfwExists : String → Bool
  /-- Whether the `.tfwx` to `.tfw` copy succeeds (failure is warned
  about and swallowed). -/
  worldCopyOk : Bool
  /-- The name `tempfile.TemporaryDirectory()` yields for this run. -/
  tmpdir : String
  /-- `gdal.Translate(dst, src, format="GTiff")`. -/
  translateGTiff : String → String → Except PyErr Unit
  /-- `gdal.Warp` with explicit source and target SRS. -/
  warpSrcDst : String → String → Int → Int → Except PyErr Unit
  /-- `gdal.Translate` of src to dst as JPEG with worldfile. -/
  translateJpeg : String → String → Except PyErr Unit
  /-- Existence of the `.aux.xml` produced beside a temporary JPEG. -/
  auxExists : String → Bool
  /-- The value `spatial_ref` holds after parsing the input's
  `.aux.xml` (None: file absent, parse error, no WKT tag, or empty). -/
  auxWkt : Option String
  /-- Number of GCP tuples recovered from the `.aux.xml`. -/
  auxGcpCount : Nat
  /-- `gdal.Open(path).GetProjection()`: `none` when the dataset cannot
  be opened, otherwise the (possibly empty) projection string. -/
  datasetProjection : Option String
  /-- `gdal.Translate` of the input to a VRT carrying the GCPs. -/
  translateVrt : String → String → Except PyErr Unit
  /-- `gdal.Warp` with only a target SRS. -/
  warpDst : String → String → Except PyErr Unit
  /-- `gdal.Translate` of the input with an assigned output SRS. -/
  translateSrs : String → String → Except PyErr Unit

/-- Embedding of `_ensure_worldfile`: copy `<stem>.tfwx` to
`<stem>.tfw` when only the former exists; copy failures are warned
about and swallowed. -/
def ensureWorldfile (env : TiffEnv) (path : String) : Trace :=
  let tfwx := stemPath path ++ ".tfwx"
  let tfw := stemPath path ++ ".tfw"
  if env.tfwxExists tfwx && !(env.tfwExists tfw) then
    (if env.worldCopyOk then [.copyWorldfile tfwx tfw] else [])
  else []

/-- The conditional move of the `.aux.xml` sidecar produced beside the
temporary JPEG of `_primary_process`. -/
def auxMoves (env : TiffEnv) (tmpJpg finalJpg : String) : Trace :=
  if env.auxExists (tmpJpg ++ ".aux.xml") then
    [.moveFile (tmpJpg ++ ".aux.xml") (finalJpg ++ ".aux.xml")]
  else []

/-- Embedding of `_primary_process`.  The temporary-filename f-string
reads `config.TARGET_EPSG` before any engine call, so the shipped
configuration raises `AttributeError` right after the worldfile check;
the `with tempfile.TemporaryDirectory()` block removes the temporary
directory on every exit, including exceptional ones. -/
def primaryProcess (cfg : Config) (env : TiffEnv) (path outdir : String) :
    Except PyErr (Option (String × String)) × Trace :=
  let trW := ensureWorldfile env path
  let base := splitextStem (basename path)
  match cfg.TARGET_EPSG with
  | none => (.error (.attributeError "TARGET_EPSG"), trW ++ [.rmtree env.tmpdir])
  | some t =>
    let tmpTif := pathJoin env.tmpdir (base ++ "_to_" ++ toString t ++ ".tif")
    match env.gdalInfo path with
    | .error e => (.error e, trW ++ [.rmtree env.tmpdir])
    | .ok info =>
      match extractEpsg env.crs info (some path) with
      | none => (.ok none, trW ++ [.rmtree env.tmpdir])
      | some s =>
        let step : Except PyErr Unit :=
          if s = t then env.translateGTiff path tmpTif
          else env.warpSrcDst path tmpTif s t
        match step with
        | .error e => (.error e, trW ++ [.rmtree env.tmpdir])
        | .ok _ =>
          let tmpJpg := pathJoin env.tmpdir (base ++ ".jpg")
          match env.translateJpeg tmpTif tmpJpg with
          | .error e => (.error e, trW ++ [.makeRaster tmpTif, .rmtree env.tmpdir])
          | .ok _ =>
            let finalJpg := pathJoin outdir (base ++ ".jpg")
            (.ok (some (finalJpg, finalJpg ++ ".aux.xml")),
             trW ++ [.makeRaster tmpTif, .runTranslate tmpTif tmpJpg cfg.JPEG_QUALITY,
                     .mkdirs outdir, .moveFile tmpJpg finalJpg]
                 ++ auxMoves env tmpJpg finalJpg ++ [.rmtree env.tmpdir])

/-- The value `spatial_ref` holds when `_secondary_process` finishes
its three-stage search: the auxiliary-XML WKT, else the dataset's own
projection, else an assumed EPSG:4326 when a `.tfwx` sidecar exists
(an empty string counts as absent at every stage). -/
def secondarySpatialRef (env : TiffEnv) (path : String) : Option String :=
  let sr1 : Option String := match env.auxWkt with
    | some w => if w = "" then none else some w
    | none => none
  let sr2 : Option String := match env.datasetProjection with
    | some p => if p = "" then none else some p
    | none => none
  let sr3 : Option String :=
    if env.tfwxExists (path.replace ".tif" ".tfwx") then some "EPSG:4326" else none
  sr1 <|> sr2 <|> sr3

/-- The corrective stage of `_secondary_process`: with GCPs, build a
VRT, warp it to the corrected raster and remove the VRT; without GCPs,
translate with an assigned output SRS. -/
def secondaryCorrect (env : TiffEnv) (path corrected : String) :
    Except PyErr Unit × Trace :=
  if env.auxGcpCount ≠ 0 then
    match env.translateVrt path (path ++ ".vrt") with
    | .error e => (.error e, [])
    | .ok _ =>
      match env.warpDst (path ++ ".vrt") corrected with
      | .error e => (.error e, [.makeRaster (path ++ ".vrt")])
      | .ok _ => (.ok (), [.makeRaster (path ++ ".vrt"), .makeRaster corrected,
                           .removeFile (path ++ ".vrt")])
  else
    match env.translateSrs path corrected with
    | .error e => (.error e, [])
    | .ok _ => (.ok (), [.makeRaster corrected])

/-- The final stage of `_secondary_process`: reproject the corrected
raster, translate it to the output JPEG, then remove both
temporaries.  An engine failure propagates before the removals run. -/
def secondaryTail (cfg : Config) (env : TiffEnv) (corrected reproj geoJpg : String) :
    Except PyErr (Option (String × String)) × Trace :=
  match env.warpDst corrected reproj with
  | .error e => (.error e, [])
  | .ok _ =>
    match env.translateJpeg reproj geoJpg with
    | .error e => (.error e, [.makeRaster reproj])
    | .ok _ =>
      (.ok (some (geoJpg, geoJpg ++ ".aux.xml")),
       [.makeRaster reproj, .runTranslate reproj geoJpg cfg.JPEG_QUALITY,
        .removeFile corrected, .removeFile reproj])

/-- Embedding of `_secondary_process`.  `spatial_ref` comes from the
auxiliary XML, then the dataset's own projection, then an assumed
EPSG:4326 when a `.tfwx` exists; with no reference the tier returns
`None`; otherwise the corrective stage runs, then the reprojection and
JPEG stage. -/
def secondaryProcess (cfg : Config) (env : TiffEnv) (path outdir : String) :
    Except PyErr (Option (String × String)) × Trace :=
  match cfg.TARGET_EPSG with
  | none => (.error (.attributeError "TARGET_EPSG"), [])
  | some t =>
    match secondarySpatialRef env path with
    | none => (.ok none, [])
    | some _ =>
      match secondaryCorrect env path
          (pathJoin outdir (splitextStem (basename path) ++ "_corrected.tif")) with
      | (.error e, tc) => (.error e, tc)
      | (.ok _, tc) =>
        match secondaryTail cfg env
            (pathJoin outdir (splitextStem (basename path) ++ "_corrected.tif"))
            (pathJoin outdir (splitextStem (basename path) ++ "_EPSG" ++ toString t ++ ".tif"))
            (pathJoin outdir (splitextStem (basename path) ++ "_EPSG" ++ toString t ++ ".jpg")) with
        | (r, tt) => (r, tc ++ tt)

/-- What a `process_tiff` call amounts to. -/
structure TiffOutcome where
  result : Except PyErr (Option String)
  trace : Trace
deriving Repr

/-- The tail of `process_tiff` reached when every tier is exhausted:
quarantine once and return `None`. -/
def tiffFinal (cfg : Config) (env : TiffEnv) (path base : String) (t : Trace) : TiffOutcome :=
  ⟨.ok none, t ++ quarantine cfg env.fs base "TIFF processing failed" path⟩

/-- The secondary attempt plus validation of its JPEG (`process_tiff`
lines 245-251). -/
def tiffSecondStage (cfg : Config) (env : TiffEnv) (path outdir base : String)
    (acc : Trace) : TiffOutcome :=
  match secondaryProcess cfg env path outdir with
  | (.error e, t2) => ⟨.error e, acc ++ [Event.secondaryAttempt] ++ t2⟩
  | (.ok none, t2) =>
    tiffFinal cfg env path base (acc ++ [Event.secondaryAttempt] ++ t2)
  | (.ok (some (jpg2, _)), t2) =>
    match env.gdalInfo jpg2 with
    | .error e => ⟨.error e, acc ++ [Event.secondaryAttempt] ++ t2⟩
    | .ok info2 =>
      if passes cfg info2 then ⟨.ok (some jpg2), acc ++ [Event.secondaryAttempt] ++ t2⟩
      else tiffFinal cfg env path base (acc ++ [Event.secondaryAttempt] ++ t2)

/-- Embedding of `process_tiff`: primary tier, bounding-box validation
of its JPEG, secondary tier, validation again, else quarantine.  Note
there is no `try`/`except` here: tier exceptions propagate. -/
def processTiff (cfg : Config) (env : TiffEnv) (path outdir : String) : TiffOutcome :=
  if (strEndsWith (pyLower path) ".tif" || strEndsWith (pyLower path) ".tiff") = false then
    ⟨.error (.valueError ("Expected a .tif or .tiff file, got: " ++ path)), []⟩
  else
    match primaryProcess cfg env path outdir with
    | (.error e, t1) => ⟨.error e, t1⟩
    | (.ok none, t1) =>
      tiffSecondStage cfg env path outdir (splitextStem (basename path)) t1
    | (.ok (some (jpg, _)), t1) =>
      match env.gdalInfo jpg with
      | .error e => ⟨.error e, t1⟩
      | .ok info =>
        if passes cfg info then ⟨.ok (some jpg), t1⟩
        else tiffSecondStage cfg env path outdir (splitextStem (basename path)) t1

/-- Whether a run outcome is an uncaught Python exception. -/
def pyRaises {α : Type} : Except PyErr α → Bool
  | .error _ => true
  | .ok _ => false

/-! ## Decidable equality for run results -/

instance {ε α : Type} [DecidableEq ε] [DecidableEq α] : DecidableEq (Except ε α)
  | .ok a, .ok b =>
    if h : a = b then isTrue (by rw [h]) else isFalse (by intro he; cases he; exact h rfl)
  | .ok _, .error _ => isFalse (by intro h; cases h)
  | .error _, .ok _ => isFalse (by intro h; cases h)
  | .error a, .error b =>
    if h : a = b then isTrue (by rw [h]) else isFalse (by intro he; cases he; exact h rfl)

/-! ## Concrete test fixtures

Small closed environments used to evaluate the pipelines at concrete
inputs.  They describe a directory holding `a.sid` / `a.tif` with a
companion `a.sdw`, a raster whose metadata carries no usable CRS, and
engine calls that succeed or fail as each scenario needs. -/

/-- A resolver environment in which every external source is empty. -/
def crsEnvNone : CrsEnv :=
  { reAuthority := fun _ => none
    reEpsgColon := fun _ => none
    direct := fun _ => {}
    sidecar := fun _ => none }

/-- A resolver environment whose direct GDAL inspection reports the
given PROJCS authority code. -/
def crsEnvDirect (c : Int) : CrsEnv :=
  { crsEnvNone with direct := fun _ => { opened := true, projcs := some c } }

/-- A directory listing with the input, one sibling sidecar and one
unrelated file; copies always succeed. -/
def fsAB : FsEnv :=
  { listdir := fun _ => ["a.sid", "a.sdw", "b.sid"]
    copyOk := fun _ => true }

/-- Corner coordinates of a raster sitting inside the validity envelope
with half-degree spans. -/
def cornersValid : Corners :=
  { upperLeft := some (-100, (81 : ℚ)/2), lowerLeft := some (-100, 40)
    upperRight := some (-(199 : ℚ)/2, (81 : ℚ)/2), lowerRight := some (-(199 : ℚ)/2, 40) }

/-- Corner coordinates around the origin: far outside the envelope. -/
def cornersInvalid : Corners :=
  { upperLeft := some (0, 1), lowerLeft := some (0, 0)
    upperRight := some (1, 1), lowerRight := some (1, 0) }

/-- Metadata of a 7x5 raster with a plausible bounding box. -/
def infoValid : GdalInfo := { cornerCoordinates := some cornersValid, size := some (7, 5) }

/-- Metadata with an implausible bounding box. -/
def infoInvalid : GdalInfo := { cornerCoordinates := some cornersInvalid }

/-- The shipped configuration completed with a target reference system,
as `convert.py` hard-codes it (EPSG:4269). -/
def cfg4269 : Config := { shippedConfig with TARGET_EPSG := some 4269 }

/-- A SID run in which no CRS is discoverable, the direct conversion
lands outside the envelope, and the first warp guess validates. -/
def sidEnvGuessHit : SidEnv :=
  { crs := crsEnvNone, fs := fsAB
    gdalinfoJson := fun p =>
      if p = "a.sid" then .ok {}
      else if p = "out/a.jpg" then .ok infoInvalid
      else .ok infoValid
    whichGdalTranslate := true
    translateJpeg := fun _ _ _ => .ok ()
    warp := fun _ _ _ _ => .ok ()
    translateTile := fun _ _ _ _ _ _ => .ok ()
    mkdtemp := "/tg" }

/-- A SID run in which no CRS is discoverable and every raster the
engine produces has an implausible bounding box: the guess loop
exhausts. -/
def sidEnvGuessMiss : SidEnv :=
  { sidEnvGuessHit with
    gdalinfoJson := fun p => if p = "a.sid" then .ok {} else .ok infoInvalid }

/-- A TIFF run in which no CRS is discoverable anywhere and the
secondary tier finds no spatial reference either. -/
def tiffEnvUnresolved : TiffEnv :=
  { crs := crsEnvNone, fs := fsAB
    gdalInfo := fun _ => .ok {}
    tfwxExists := fun _ => false
    tfwExists := fun _ => false
    worldCopyOk := true
    tmpdir := "/tt"
    translateGTiff := fun _ _ => .ok ()
    warpSrcDst := fun _ _ _ _ => .ok ()
    translateJpeg := fun _ _ => .ok ()
    auxExists := fun _ => false
    auxWkt := none
    auxGcpCount := 0
    datasetProjection := none
    translateVrt := fun _ _ => .ok ()
    warpDst := fun _ _ => .ok ()
    translateSrs := fun _ _ => .ok () }

/-- A TIFF run whose input already carries the target CRS and whose
primary-tier JPEG validates. -/
def tiffEnvPrimaryValid : TiffEnv :=
  { tiffEnvUnresolved with
    crs := crsEnvDirect 4269
    gdalInfo := fun p => if p = "a.tif" then .ok {} else .ok infoValid }

/-- A TIFF run whose input declares EPSG:4326 and whose reprojection
call fails with an engine error. -/
def tiffEnvWarpFails : TiffEnv :=
  { tiffEnvPrimaryValid with
    crs := crsEnvDirect 4326
    warpSrcDst := fun _ _ _ _ => .error (.engineError "warp failed") }

/-- A TIFF run with no primary-tier CRS whose auxiliary XML supplies a
well-known-text spatial reference; the secondary tier succeeds. -/
def tiffEnvAuxWkt : TiffEnv :=
  { tiffEnvUnresolved with
    auxWkt := some "PROJCS"
    gdalInfo := fun p => if p = "a.tif" then .ok {} else .ok infoValid }

/-! ## Helper lemmas -/

theorem firstValid_ne (l : List (Option Int)) : firstValid l ≠ some 7019 := by
  induction l with
  | nil => simp [firstValid]
  | cons hd tl ih =>
    cases hd with
    | none => simpa [firstValid] using ih
    | some v =>
      by_cases h : v = 7019
      · subst h; simpa [firstValid] using ih
      · simp [firstValid, h]

theorem directResult_ne (d : DirectInspection) : directResult d ≠ some 7019 := by
  unfold directResult
  split_ifs with h
  · simp
  · rcases hf : firstValid [d.projcs, d.geogcs, d.unscoped] with _ | v
    · cases ha : d.autoCode with
      | none => simp
      | some v =>
        by_cases h7 : v = 7019
        · subst h7; simp
        · simp [h7]
    · have hne := firstValid_ne [d.projcs, d.geogcs, d.unscoped]
      rw [hf] at hne
      simpa using hne

theorem ensure_events (env : TiffEnv) (path : String) :
    ∀ e ∈ ensureWorldfile env path, ∃ s d, e = Event.copyWorldfile s d := by
  intro e he
  unfold ensureWorldfile at he
  split_ifs at he <;> simp at he
  exact ⟨_, _, he.2⟩

theorem auxMoves_events (env : TiffEnv) (a b : String) :
    ∀ e ∈ auxMoves env a b, ∃ s d, e = Event.moveFile s d := by
  intro e he
  unfold auxMoves at he
  split_ifs at he <;> simp at he
  exact ⟨_, _, he⟩

theorem primary_trace_events (cfg : Config) (env : TiffEnv) (path outdir : String) :
    ∀ e ∈ (primaryProcess cfg env path outdir).2,
      (∀ p l, e ≠ Event.logAppend p l) ∧ (∀ n, e ≠ Event.copyToFailed n) ∧
      e ≠ Event.secondaryAttempt ∧ (∀ d, e ≠ Event.removeFile d) := by
  intro e he
  simp only [primaryProcess] at he
  repeat' split at he
  all_goals
    simp only [List.mem_append, List.mem_cons, List.not_mem_nil, or_false, false_or,
               or_assoc] at he
  all_goals rcases he with he1 | rfl | rfl | rfl | rfl | he2 | rfl
  all_goals try simp
  all_goals try (obtain ⟨s, d, rfl⟩ := ensure_events _ _ _ he1; simp)
  all_goals (obtain ⟨s, d, rfl⟩ := auxMoves_events _ _ _ _ he2; simp)

theorem secondaryCorrect_events (env : TiffEnv) (path corrected : String) :
    ∀ e ∈ (secondaryCorrect env path corrected).2,
      e = Event.makeRaster (path ++ ".vrt") ∨ e = Event.makeRaster corrected ∨
      e = Event.removeFile (path ++ ".vrt") := by
  intro e he
  unfold secondaryCorrect at he
  split_ifs at he
  · rcases hv : env.translateVrt path (path ++ ".vrt") with er | u <;> rw [hv] at he
    · simp at he
    · rcases hw : env.warpDst (path ++ ".vrt") corrected with er | u <;> rw [hw] at he <;>
        simp at he <;> tauto
  · rcases hs : env.translateSrs path corrected with er | u <;> rw [hs] at he <;> simp at he
    tauto

theorem secondaryTail_events (cfg : Config) (env : TiffEnv) (corrected reproj geoJpg : String) :
    ∀ e ∈ (secondaryTail cfg env corrected reproj geoJpg).2,
      e = Event.makeRaster reproj ∨ e = Event.runTranslate reproj geoJpg cfg.JPEG_QUALITY ∨
      e = Event.removeFile corrected ∨ e = Event.removeFile reproj := by
  intro e he
  unfold secondaryTail at he
  rcases hw : env.warpDst corrected reproj with er | u <;> rw [hw] at he
  · simp at he
  · rcases ht : env.translateJpeg reproj geoJpg with er | u <;> rw [ht] at he <;>
      simp at he <;> tauto

theorem secondary_trace_events (cfg : Config) (env : TiffEnv) (path outdir : String) :
    ∀ e ∈ (secondaryProcess cfg env path outdir).2,
      (∀ p l, e ≠ Event.logAppend p l) ∧ (∀ n, e ≠ Event.copyToFailed n) ∧
      e ≠ Event.secondaryAttempt := by
  intro e he
  unfold secondaryProcess at he
  rcases hT : cfg.TARGET_EPSG with _ | t <;> rw [hT] at he <;> simp only [] at he
  · simp at he
  · rcases hsr : secondarySpatialRef env path with _ | s <;> rw [hsr] at he <;>
      simp only [] at he
    · simp at he
    · rcases hc : secondaryCorrect env path
          (pathJoin outdir (splitextStem (basename path) ++ "_corrected.tif")) with ⟨rc, tc⟩
      rw [hc] at he
      have htc : ∀ x ∈ tc, x = Event.makeRaster (path ++ ".vrt") ∨
          x = Event.makeRaster (pathJoin outdir (splitextStem (basename path) ++ "_corrected.tif")) ∨
          x = Event.removeFile (path ++ ".vrt") := by
        intro x hx
        exact secondaryCorrect_events env path _ x (by rw [hc]; exact hx)
      cases rc with
      | error er =>
        simp only [] at he
        rcases htc e he with rfl | rfl | rfl <;> simp
      | ok u =>
        simp only [] at he
        rcases ht2 : secondaryTail cfg env
            (pathJoin outdir (splitextStem (basename path) ++ "_corrected.tif"))
            (pathJoin outdir (splitextStem (basename path) ++ "_EPSG" ++ toString t ++ ".tif"))
            (pathJoin outdir (splitextStem (basename path) ++ "_EPSG" ++ toString t ++ ".jpg"))
            with ⟨rt, tt⟩
        rw [ht2] at he
        simp only [List.mem_append] at he
        rcases he with he | he
        · rcases htc e he with rfl | rfl | rfl <;> simp
        · have h4 := secondaryTail_events cfg env _ _ _ e (by rw [ht2]; exact he)
          rcases h4 with rfl | rfl | rfl | rfl <;> simp

theorem qi_append (a b : Trace) :
    quarantineInvocations (a ++ b) = quarantineInvocations a + quarantineInvocations b :=
  List.countP_append _ _ _

theorem qi_logError (cfg : Config) (base msg : String) :
    quarantineInvocations (logError cfg base msg) = 1 := by
  simp [logError, quarantineInvocations]

theorem qi_moveToFailed (cfg : Config) (fs : FsEnv) (src : String) :
    quarantineInvocations (moveToFailed cfg fs src) = 0 := by
  simp only [moveToFailed, quarantineInvocations]
  refine List.countP_eq_zero.2 ?_
  intro e he
  rcases List.mem_cons.1 he with h | h
  · subst h; simp
  · rcases List.mem_filterMap.1 h with ⟨m, _, hme⟩
    by_cases h1 : strStartsWith m (splitextStem (basename src)) = true
    · rw [if_pos h1] at hme
      by_cases h2 : fs.copyOk m = true
      · rw [if_pos h2] at hme
        obtain rfl := Option.some.inj hme
        simp
      · rw [if_neg h2] at hme; cases hme
    · rw [if_neg h1] at hme; cases hme

theorem qi_quarantine (cfg : Config) (fs : FsEnv) (base msg src : String) :
    quarantineInvocations (quarantine cfg fs base msg src) = 1 := by
  simp [quarantine, qi_append, qi_logError, qi_moveToFailed]

theorem qi_primary (cfg : Config) (env : TiffEnv) (path outdir : String) :
    quarantineInvocations (primaryProcess cfg env path outdir).2 = 0 := by
  refine List.countP_eq_zero.2 ?_
  intro e he
  have h := primary_trace_events cfg env path outdir e he
  cases e <;> first | (exact absurd rfl (h.1 _ _)) | simp

theorem qi_secondary (cfg : Config) (env : TiffEnv) (path outdir : String) :
    quarantineInvocations (secondaryProcess cfg env path outdir).2 = 0 := by
  refine List.countP_eq_zero.2 ?_
  intro e he
  have h := secondary_trace_events cfg env path outdir e he
  cases e <;> first | (exact absurd rfl (h.1 _ _)) | simp

theorem primary_no_secondaryAttempt (cfg : Config) (env : TiffEnv) (path outdir : String) :
    Event.secondaryAttempt ∉ (primaryProcess cfg env path outdir).2 :=
  fun he => (primary_trace_events cfg env path outdir _ he).2.2.1 rfl

theorem secondary_no_secondaryAttempt (cfg : Config) (env : TiffEnv) (path outdir : String) :
    Event.secondaryAttempt ∉ (secondaryProcess cfg env path outdir).2 :=
  fun he => (secondary_trace_events cfg env path outdir _ he).2.2 rfl

theorem qi_secondaryAttempt : quarantineInvocations [Event.secondaryAttempt] = 0 := rfl

theorem qi_warpToTarget (cfg : Config) (env : SidEnv) (s d : String) (e : Option Int) :
    quarantineInvocations (warpToTarget cfg env s d e).2 = 0 := by
  unfold warpToTarget
  rcases hT : cfg.TARGET_EPSG with _ | t
  · rfl
  · simp only []
    rcases hw : env.warp s d e t with er | u <;> rfl

theorem qi_guessLoop (cfg : Config) (env : SidEnv) (src tmpDir base : String) :
    ∀ cands, quarantineInvocations (guessLoop cfg env src tmpDir base cands).2 = 0 := by
  intro cands
  induction cands with
  | nil => rfl
  | cons c rest ih =>
    simp only [guessLoop]
    rcases hw : warpToTarget cfg env src
        (pathJoin tmpDir (base ++ "_guess_" ++ toString c ++ ".tif")) (some c) with ⟨rw1, tw⟩
    have hqw : quarantineInvocations tw = 0 := by
      have hx := qi_warpToTarget cfg env src
        (pathJoin tmpDir (base ++ "_guess_" ++ toString c ++ ".tif")) (some c)
      rw [hw] at hx
      exact hx
    rcases hr : guessLoop cfg env src tmpDir base rest with ⟨r, tr⟩
    have hqr : quarantineInvocations tr = 0 := by
      rw [hr] at ih
      exact ih
    rcases rw1 with er | u
    · simp only []
      rw [qi_append, hqw, hqr]
    · rcases hgj : env.gdalinfoJson
          (pathJoin tmpDir (base ++ "_guess_" ++ toString c ++ ".tif")) with er | info
      · simp only []
        rw [qi_append, qi_append, hqw, hqr]
        rfl
      · simp only []
        by_cases hps : passes cfg info = true
        · rw [if_pos hps]
          exact hqw
        · rw [if_neg (by simp [hps])]
          simp only []
          rw [qi_append, qi_append, hqw, hqr]
          rfl

theorem qi_guess (cfg : Config) (env : SidEnv) (src : String) :
    quarantineInvocations (guessEpsgAndWarp cfg env src).2 = 0 :=
  qi_guessLoop cfg env src env.mkdtemp (splitextStem (basename src)) guessCandidates

theorem primary_shipped (env : TiffEnv) (path outdir : String) :
    primaryProcess shippedConfig env path outdir =
      (.error (.attributeError "TARGET_EPSG"),
       ensureWorldfile env path ++ [.rmtree env.tmpdir]) := rfl

theorem secondStage_mem (cfg : Config) (env : TiffEnv) (path outdir base : String)
    (acc : Trace) :
    Event.secondaryAttempt ∈ (tiffSecondStage cfg env path outdir base acc).trace := by
  unfold tiffSecondStage
  rcases hs : secondaryProcess cfg env path outdir with ⟨r2, t2⟩
  rcases r2 with er | o
  · simp
  · rcases o with _ | ⟨jpg2, aux2⟩
    · simp [tiffFinal]
    · simp only []
      rcases hgi : env.gdalInfo jpg2 with er | i2 <;> simp only []
      · simp
      · by_cases hp2 : passes cfg i2 = true
        · rw [if_pos hp2]; simp
        · rw [if_neg (by simp [hp2])]; simp [tiffFinal]

theorem secondStage_qi (cfg : Config) (env : TiffEnv) (path outdir base : String)
    (acc : Trace)
    (h : (tiffSecondStage cfg env path outdir base acc).result = .ok none) :
    quarantineInvocations (tiffSecondStage cfg env path outdir base acc).trace =
      quarantineInvocations acc + 1 := by
  unfold tiffSecondStage at h ⊢
  rcases hs : secondaryProcess cfg env path outdir with ⟨r2, t2⟩
  rw [hs] at h
  have hq2 : quarantineInvocations t2 = 0 := by
    have hx := qi_secondary cfg env path outdir
    rw [hs] at hx
    exact hx
  rcases r2 with er | o
  · simp at h
  · rcases o with _ | ⟨jpg2, aux2⟩
    · simp only [tiffFinal]
      rw [qi_append, qi_append, qi_append, hq2, qi_quarantine, qi_secondaryAttempt]
    · simp only [] at h ⊢
      rcases hgi : env.gdalInfo jpg2 with er | i2 <;> rw [hgi] at h <;>
        simp only [] at h ⊢
      · simp at h
      · by_cases hp2 : passes cfg i2 = true
        · rw [if_pos hp2] at h; simp at h
        · rw [if_neg (by simp [hp2])] at h ⊢
          simp only [tiffFinal]
          rw [qi_append, qi_append, qi_append, hq2, qi_quarantine, qi_secondaryAttempt]


/-! ### Raster bookkeeping lemmas (for the cleanup analysis) -/

theorem made_append (a b : Trace) :
    madeRasters (a ++ b) = madeRasters a ++ madeRasters b :=
  List.filterMap_append a b _

theorem removed_append (a b : Trace) :
    removedFiles (a ++ b) = removedFiles a ++ removedFiles b :=
  List.filterMap_append a b _

theorem made_map_remove (l : List String) :
    madeRasters (l.map (fun f => Event.removeFile f)) = [] := by
  simp [madeRasters]

theorem removed_map_remove (l : List String) :
    removedFiles (l.map (fun f => Event.removeFile f)) = l := by
  induction l with
  | nil => rfl
  | cons a l ih =>
    simp only [removedFiles, List.map_cons, List.filterMap_cons] at ih ⊢
    exact congrArg (List.cons a) ih

theorem made_quarantine (cfg : Config) (fs : FsEnv) (base msg src : String) :
    madeRasters (quarantine cfg fs base msg src) = [] := by
  simp only [quarantine, logError, moveToFailed, madeRasters]
  refine List.filterMap_eq_nil_iff.2 ?_
  intro e he
  rcases List.mem_append.1 he with h | h
  · rcases List.mem_cons.1 h with rfl | h
    · rfl
    · rcases List.mem_cons.1 h with rfl | h
      · rfl
      · cases h
  · rcases List.mem_cons.1 h with rfl | h
    · rfl
    · rcases List.mem_filterMap.1 h with ⟨m, _, hme⟩
      by_cases h1 : strStartsWith m (splitextStem (basename src)) = true
      · rw [if_pos h1] at hme
        by_cases h2 : fs.copyOk m = true
        · rw [if_pos h2] at hme
          obtain rfl := Option.some.inj hme
          rfl
        · rw [if_neg h2] at hme; cases hme
      · rw [if_neg h1] at hme; cases hme

theorem made_convert (env : SidEnv) (src dstDir dstName : String) (q : Nat) :
    madeRasters (convertToJpeg env src dstDir dstName q).2 = [] := by
  unfold convertToJpeg
  by_cases hw : env.whichGdalTranslate = false
  · rw [if_pos hw]
    rfl
  · rw [if_neg hw]
    rcases ht : env.translateJpeg src (pathJoin dstDir (dstName ++ ".jpg")) q with e | u <;> rfl

theorem made_emit (env : SidEnv) (src outdir : String) :
    ∀ l : List Tile, madeRasters (emitTiles env src outdir l).2 = [] := by
  intro l
  induction l with
  | nil => rfl
  | cons t rest ih =>
    simp only [emitTiles]
    rcases ht : env.translateTile src (pathJoin outdir t.name) t.xoff t.yoff t.w t.h with e | u
    · rfl
    · simp only []
      rcases hr : emitTiles env src outdir rest with ⟨rr, tr⟩
      have htr : madeRasters tr = [] := by rw [hr] at ih; exact ih
      rcases rr with e | ds <;> simp only [] <;>
        simpa [madeRasters, List.filterMap_cons] using htr

theorem tileStage_spec (cfg : Config) (env : SidEnv) (src outdir base : String)
    (tmps : List String) :
    madeRasters (sidTileStage cfg env src outdir base tmps).trace = [] ∧
    (sidTileStage cfg env src outdir base tmps).tmps = tmps := by
  unfold sidTileStage
  rcases hg : env.gdalinfoJson src with e | info
  · exact ⟨rfl, rfl⟩
  · simp only []
    by_cases hp : passes cfg info = false
    · rw [if_pos hp]; exact ⟨rfl, rfl⟩
    · rw [if_neg hp]
      by_cases hz : (info.size.getD (0, 0)).1 = 0 ∨ (info.size.getD (0, 0)).2 = 0
      · rw [if_pos hz]; exact ⟨rfl, rfl⟩
      · rw [if_neg hz]
        rcases he : emitTiles env src outdir
            (tilePlan base (info.size.getD (0, 0)).1 (info.size.getD (0, 0)).2
              cfg.SID_TILE_WIDTH cfg.SID_TILE_HEIGHT) with ⟨r, te⟩
        have hte : madeRasters te = [] := by
          have h := made_emit env src outdir
            (tilePlan base (info.size.getD (0, 0)).1 (info.size.getD (0, 0)).2
              cfg.SID_TILE_WIDTH cfg.SID_TILE_HEIGHT)
          rw [he] at h; exact h
        rcases r with e | ds <;> simp only [] <;>
          exact ⟨by simpa [madeRasters, List.filterMap_cons] using hte, by trivial⟩

theorem warp_error_trace (cfg : Config) (env : SidEnv) (s d : String) (e : Option Int)
    (er : PyErr) (t : Trace) (h : warpToTarget cfg env s d e = (.error er, t)) : t = [] := by
  unfold warpToTarget at h
  rcases hT : cfg.TARGET_EPSG with _ | tgt <;> rw [hT] at h <;> simp only [] at h
  · injection h with h1 h2; exact h2.symm
  · rcases hw : env.warp s d e tgt with e2 | u <;> rw [hw] at h <;> simp only [] at h
    · injection h with h1 h2; exact h2.symm
    · injection h with h1 h2; injection h1

theorem warp_ok_trace (cfg : Config) (env : SidEnv) (s d : String) (e : Option Int)
    (t : Trace) (h : warpToTarget cfg env s d e = (.ok (), t)) : t = [.makeRaster d] := by
  unfold warpToTarget at h
  rcases hT : cfg.TARGET_EPSG with _ | tgt <;> rw [hT] at h <;> simp only [] at h
  · injection h with h1 h2; injection h1
  · rcases hw : env.warp s d e tgt with e2 | u <;> rw [hw] at h <;> simp only [] at h
    · injection h with h1 h2; injection h1
    · injection h with h1 h2; exact h2.symm

theorem guessLoop_made (cfg : Config) (env : SidEnv) (src tmpDir base : String) :
    ∀ cands : List Int, ∀ f ∈ madeRasters (guessLoop cfg env src tmpDir base cands).2,
      ∃ c ∈ cands, f = pathJoin tmpDir (base ++ "_guess_" ++ toString c ++ ".tif") := by
  intro cands
  induction cands with
  | nil => intro f hf; simp [guessLoop, madeRasters] at hf
  | cons cand rest ih =>
    intro f hf
    simp only [guessLoop] at hf
    rcases hw : warpToTarget cfg env src
        (pathJoin tmpDir (base ++ "_guess_" ++ toString cand ++ ".tif")) (some cand) with ⟨rw1, tw⟩
    rw [hw] at hf
    rcases rw1 with er | u
    · simp only [] at hf
      rcases hrec : guessLoop cfg env src tmpDir base rest with ⟨r, tr⟩
      rw [hrec] at hf
      simp only [] at hf
      rw [made_append, warp_error_trace cfg env src _ (some cand) er tw hw] at hf
      simp only [madeRasters, List.filterMap_nil, List.nil_append] at hf
      obtain ⟨c, hc, he⟩ := ih f (by rw [hrec]; exact hf)
      exact ⟨c, List.mem_cons_of_mem _ hc, he⟩
    · cases u
      simp only [] at hf
      have htw := warp_ok_trace cfg env src
        (pathJoin tmpDir (base ++ "_guess_" ++ toString cand ++ ".tif")) (some cand) tw hw
      rcases hgi : env.gdalinfoJson (pathJoin tmpDir (base ++ "_guess_" ++ toString cand ++ ".tif"))
          with e2 | info
      · rw [hgi] at hf
        simp only [] at hf
        rcases hrec : guessLoop cfg env src tmpDir base rest with ⟨r, tr⟩
        rw [hrec] at hf
        simp only [] at hf
        rw [made_append, made_append, htw] at hf
        rcases List.mem_append.1 hf with hf | hf
        · rcases List.mem_append.1 hf with hf | hf
          · simp only [madeRasters, List.filterMap_cons, List.filterMap_nil] at hf
            rcases List.mem_singleton.1 hf with rfl
            exact ⟨cand, List.mem_cons_self _ _, rfl⟩
          · simp [madeRasters] at hf
        · obtain ⟨c, hc, he⟩ := ih f (by rw [hrec]; exact hf)
          exact ⟨c, List.mem_cons_of_mem _ hc, he⟩
      · rw [hgi] at hf
        simp only [] at hf
        by_cases hp : passes cfg info = true
        · rw [if_pos hp] at hf
          rw [htw] at hf
          simp only [madeRasters, List.filterMap_cons, List.filterMap_nil] at hf
          rcases List.mem_singleton.1 hf with rfl
          exact ⟨cand, List.mem_cons_self _ _, rfl⟩
        · rw [if_neg hp] at hf
          rcases hrec : guessLoop cfg env src tmpDir base rest with ⟨r, tr⟩
          rw [hrec] at hf
          simp only [] at hf
          rw [made_append, made_append, htw] at hf
          rcases List.mem_append.1 hf with hf | hf
          · rcases List.mem_append.1 hf with hf | hf
            · simp only [madeRasters, List.filterMap_cons, List.filterMap_nil] at hf
              rcases List.mem_singleton.1 hf with rfl
              exact ⟨cand, List.mem_cons_self _ _, rfl⟩
            · simp [madeRasters] at hf
          · obtain ⟨c, hc, he⟩ := ih f (by rw [hrec]; exact hf)
            exact ⟨c, List.mem_cons_of_mem _ hc, he⟩

theorem sidBody_made (cfg : Config) (env : SidEnv) (path outdir base : String)
    (epsg : Option Int) (r : Except PyErr (List String)) (tr : Trace) (tmps : List String)
    (hb : sidBody cfg env path outdir base epsg = ⟨r, tr, tmps⟩) :
    ∀ f ∈ madeRasters tr,
      (∃ c ∈ guessCandidates,
        f = pathJoin env.mkdtemp
              (splitextStem (basename path) ++ "_guess_" ++ toString c ++ ".tif")) ∨
      (f = pathJoin outdir (base ++ "_warp.tif") ∧ f ∈ tmps) := by
  intro f hf
  unfold sidBody at hb
  rcases epsg with _ | e
  · rcases hc : convertToJpeg env path outdir base 60 with ⟨rc, tc⟩
    rw [hc] at hb
    have htc : madeRasters tc = [] := by
      have h := made_convert env path outdir base 60
      rw [hc] at h; exact h
    rcases rc with er | dst <;> simp only [] at hb
    · injection hb with h1 h2 h3
      subst h2
      rw [htc] at hf
      cases hf
    · rcases hgi : env.gdalinfoJson dst with er2 | info <;> rw [hgi] at hb <;>
        simp only [] at hb
      · injection hb with h1 h2 h3
        subst h2
        rw [htc] at hf
        cases hf
      · by_cases hp : passes cfg info = true
        · rw [if_pos hp] at hb
          injection hb with h1 h2 h3
          subst h2
          rw [htc] at hf
          cases hf
        · rw [if_neg hp] at hb
          rcases hg : guessEpsgAndWarp cfg env path with ⟨go, tg⟩
          rw [hg] at hb
          have htg : ∀ f ∈ madeRasters tg, ∃ c ∈ guessCandidates,
              f = pathJoin env.mkdtemp
                    (splitextStem (basename path) ++ "_guess_" ++ toString c ++ ".tif") := by
            intro f hf
            refine guessLoop_made cfg env path env.mkdtemp (splitextStem (basename path))
              guessCandidates f ?_
            unfold guessEpsgAndWarp at hg
            rw [hg]
            exact hf
          rcases go with _ | g <;> simp only [] at hb
          · injection hb with h1 h2 h3
            subst h2
            rw [made_append, htc, List.nil_append] at hf
            exact Or.inl (htg f hf)
          · rcases hc2 : convertToJpeg env g outdir base 60 with ⟨rc2, t2⟩
            rw [hc2] at hb
            have ht2 : madeRasters t2 = [] := by
              have h := made_convert env g outdir base 60
              rw [hc2] at h; exact h
            rcases rc2 with er3 | dst2 <;> simp only [] at hb <;>
              (injection hb with h1 h2 h3; subst h2;
               rw [made_append, made_append, htc, ht2, List.nil_append, List.append_nil] at hf;
               exact Or.inl (htg f hf))
  · rcases hT : cfg.TARGET_EPSG with _ | tgt <;> rw [hT] at hb <;> simp only [] at hb
    · injection hb with h1 h2 h3
      subst h2
      cases hf
    · by_cases het : e = tgt
      · rw [if_neg (show ¬(e ≠ tgt) from fun h => h het)] at hb
        have h := (tileStage_spec cfg env path outdir base []).1
        rw [hb] at h
        rw [h] at hf
        cases hf
      · rw [if_pos het] at hb
        rcases hw : warpToTarget cfg env path (pathJoin outdir (base ++ "_warp.tif")) (some e)
            with ⟨rw1, tw⟩
        rw [hw] at hb
        rcases rw1 with er | u <;> simp only [] at hb
        · injection hb with h1 h2 h3
          subst h2
          rw [warp_error_trace cfg env path _ (some e) er tw hw] at hf
          cases hf
        · cases u
          injection hb with h1 h2 h3
          subst h2
          subst h3
          rw [made_append,
            (tileStage_spec cfg env (pathJoin outdir (base ++ "_warp.tif")) outdir base
              [pathJoin outdir (base ++ "_warp.tif")]).1,
            warp_ok_trace cfg env path (pathJoin outdir (base ++ "_warp.tif")) (some e) tw hw,
            List.append_nil] at hf
          simp only [madeRasters, List.filterMap_cons, List.filterMap_nil] at hf
          rcases List.mem_singleton.1 hf with rfl
          refine Or.inr ⟨rfl, ?_⟩
          rw [(tileStage_spec cfg env (pathJoin outdir (base ++ "_warp.tif")) outdir base
              [pathJoin outdir (base ++ "_warp.tif")]).2]
          exact List.mem_singleton.2 rfl

theorem secondaryTail_ok_trace (cfg : Config) (env : TiffEnv) (c rp g : String)
    (v : Option (String × String)) (tt : Trace)
    (h : secondaryTail cfg env c rp g = (.ok v, tt)) :
    tt = [.makeRaster rp, .runTranslate rp g cfg.JPEG_QUALITY,
          .removeFile c, .removeFile rp] := by
  unfold secondaryTail at h
  rcases hw : env.warpDst c rp with e | u <;> rw [hw] at h <;> simp only [] at h
  · injection h with h1 h2; injection h1
  · rcases hj : env.translateJpeg rp g with e | u2 <;> rw [hj] at h <;> simp only [] at h
    · injection h with h1 h2; injection h1
    · injection h with h1 h2; exact h2.symm

/-! ### Tiling arithmetic lemmas -/

theorem cdiv_eq (a b : Nat) (ha : 1 ≤ a) (hb : 1 ≤ b) : cdiv a b = (a - 1) / b + 1 := by
  unfold cdiv
  have h1 : a + b - 1 = (a - 1) + b := by omega
  rw [h1, Nat.add_div_right _ (by omega)]

theorem lt_cdiv (a b p : Nat) (hb : 1 ≤ b) (hp : p < a) : p / b < cdiv a b := by
  have ha : 1 ≤ a := by omega
  rw [cdiv_eq a b ha hb]
  have h := Nat.div_le_div_right (c := b) (show p ≤ a - 1 by omega)
  omega

theorem window_iff (Tb W p x : Nat) (hb : 1 ≤ Tb) (hp : p < W) :
    (x * Tb ≤ p ∧ p < x * Tb + min Tb (W - x * Tb)) ↔ x = p / Tb := by
  constructor
  · rintro ⟨h1, h2⟩
    have hmin := Nat.min_le_left Tb (W - x * Tb)
    have h3 : p < (x + 1) * Tb := by rw [Nat.succ_mul]; omega
    exact (Nat.div_eq_of_lt_le h1 h3).symm
  · rintro rfl
    have hdm := Nat.div_add_mod p Tb
    have hml : p % Tb < Tb := Nat.mod_lt p (by omega)
    have hdm2 : p / Tb * Tb + p % Tb = p := by rw [Nat.mul_comm] at hdm; exact hdm
    refine ⟨Nat.div_mul_le_self p Tb, ?_⟩
    rw [Nat.min_def]
    split <;> omega

theorem interior_min (W Tb x : Nat) (hW : 1 ≤ W) (hb : 1 ≤ Tb) (hx : x + 1 < cdiv W Tb) :
    min Tb (W - x * Tb) = Tb := by
  have hcd : cdiv W Tb = (W - 1) / Tb + 1 := cdiv_eq W Tb hW hb
  have hle : x + 1 ≤ (W - 1) / Tb := by omega
  have h2 : (x + 1) * Tb ≤ W - 1 := (Nat.le_div_iff_mul_le (by omega)).1 hle
  rw [Nat.succ_mul] at h2
  exact Nat.min_eq_left (by omega)

theorem boundary_min (W Tb x : Nat) (hW : 1 ≤ W) (hb : 1 ≤ Tb) (hx : x + 1 = cdiv W Tb) :
    min Tb (W - x * Tb) = if W % Tb = 0 then Tb else W % Tb := by
  have hcd : cdiv W Tb = (W - 1) / Tb + 1 := cdiv_eq W Tb hW hb
  have hxq : x = (W - 1) / Tb := by omega
  subst hxq
  have hdm := Nat.div_add_mod (W - 1) Tb
  have hml : (W - 1) % Tb < Tb := Nat.mod_lt _ (by omega)
  have hdm2 : (W - 1) / Tb * Tb + (W - 1) % Tb = W - 1 := by
    rw [Nat.mul_comm] at hdm; exact hdm
  have hW2 : W = Tb * ((W - 1) / Tb) + ((W - 1) % Tb + 1) := by omega
  have hmod : W % Tb = ((W - 1) % Tb + 1) % Tb := by
    conv_lhs => rw [hW2]
    rw [Nat.mul_add_mod]
  by_cases hfull : (W - 1) % Tb + 1 = Tb
  · rw [hmod, hfull, Nat.mod_self, if_pos rfl]
    have hdiff : W - (W - 1) / Tb * Tb = Tb := by omega
    rw [hdiff, Nat.min_self]
  · have hlt : (W - 1) % Tb + 1 < Tb := by omega
    have hmod2 : W % Tb = (W - 1) % Tb + 1 := by rw [hmod, Nat.mod_eq_of_lt hlt]
    rw [hmod2, if_neg (by omega)]
    have hdiff : W - (W - 1) / Tb * Tb = (W - 1) % Tb + 1 := by omega
    rw [hdiff, Nat.min_eq_right (by omega)]

theorem grid_length {α : Type} (g : Nat → Nat → α) (nx n : Nat) :
    ((List.range n).flatMap (fun y => (List.range nx).map (fun x => g x y))).length = n * nx := by
  rw [List.length_flatMap]
  have hrep : (List.range n).map
      (List.length ∘ (fun y => (List.range nx).map (fun x => g x y)))
      = List.replicate n nx := by
    rw [List.eq_replicate_iff]
    refine ⟨by rw [List.length_map, List.length_range], ?_⟩
    intro b hb
    rcases List.mem_map.1 hb with ⟨y, hy, rfl⟩
    simp [Function.comp]
  rw [hrep, List.sum_replicate, smul_eq_mul]

theorem grid_get {α : Type} (g : Nat → Nat → α) (nx : Nat) :
    ∀ n x y, x < nx → y < n →
      ((List.range n).flatMap (fun y => (List.range nx).map (fun x => g x y)))[y * nx + x]? =
        some (g x y) := by
  intro n
  induction n with
  | zero => intro x y hx hy; omega
  | succ n ih =>
    intro x y hx hy
    rw [List.range_succ, List.flatMap_append]
    by_cases hyn : y < n
    · rw [List.getElem?_append_left]
      · exact ih x y hx hyn
      · rw [grid_length]
        have h1 : y + 1 ≤ n := hyn
        have h2 : (y + 1) * nx ≤ n * nx := Nat.mul_le_mul_right nx h1
        rw [Nat.succ_mul] at h2
        omega
    · have hyeq : y = n := by omega
      subst hyeq
      rw [List.getElem?_append_right (by rw [grid_length]; omega)]
      rw [grid_length, Nat.add_sub_cancel_left]
      simp [List.getElem?_map, List.getElem?_range hx]

theorem countP_flatMap_sum {α β : Type} (p : β → Bool) (f : α → List β) :
    ∀ l : List α, (l.flatMap f).countP p = (l.map (fun a => (f a).countP p)).sum := by
  intro l
  induction l with
  | nil => rfl
  | cons a l ih => simp [List.flatMap_cons, List.countP_append, ih]

theorem countP_range_eq (j : Nat) : ∀ n, j < n →
    (List.range n).countP (fun x => decide (x = j)) = 1 := by
  intro n
  induction n with
  | zero => intro h; omega
  | succ n ih =>
    intro hj
    rw [List.range_succ, List.countP_append]
    by_cases h : j < n
    · rw [ih h]
      have h0 : List.countP (fun x => decide (x = j)) [n] = 0 := by
        simp [List.countP_cons]
        omega
      rw [h0]
    · have hj2 : j = n := by omega
      subst hj2
      have h0 : (List.range j).countP (fun x => decide (x = j)) = 0 := by
        refine List.countP_eq_zero.2 ?_
        intro a ha
        have := List.mem_range.1 ha
        simp
        omega
      rw [h0]
      simp [List.countP_cons]

theorem sum_map_ite_eq (j : Nat) : ∀ n, j < n →
    ((List.range n).map (fun y => if y = j then 1 else 0)).sum = 1 := by
  intro n
  induction n with
  | zero => intro h; omega
  | succ n ih =>
    intro hj
    rw [List.range_succ, List.map_append, List.sum_append]
    by_cases h : j < n
    · rw [ih h]
      simp
      omega
    · have hj2 : j = n := by omega
      subst hj2
      have h0 : ((List.range j).map (fun y => if y = j then 1 else 0)).sum = 0 := by
        have hall : (List.range j).map (fun y => if y = j then 1 else 0)
            = List.replicate j 0 := by
          rw [List.eq_replicate_iff]
          refine ⟨by rw [List.length_map, List.length_range], ?_⟩
          intro b hb
          rcases List.mem_map.1 hb with ⟨y, hy, rfl⟩
          have := List.mem_range.1 hy
          rw [if_neg (by omega)]
        rw [hall, List.sum_replicate, smul_zero]
      rw [h0]
      simp

theorem covers_mkTile_iff (base : String) (W H Tw Th x y px py : Nat)
    (hTw : 1 ≤ Tw) (hTh : 1 ≤ Th) (hpx : px < W) (hpy : py < H) :
    covers (mkTile base Tw Th W H x y) px py = true ↔ (x = px / Tw ∧ y = py / Th) := by
  simp only [covers, mkTile, Bool.and_eq_true, decide_eq_true_eq]
  constructor
  · rintro ⟨⟨⟨h1, h2⟩, h3⟩, h4⟩
    exact ⟨(window_iff Tw W px x hTw hpx).1 ⟨h1, h2⟩,
           (window_iff Th H py y hTh hpy).1 ⟨h3, h4⟩⟩
  · rintro ⟨hx, hy⟩
    obtain ⟨h1, h2⟩ := (window_iff Tw W px x hTw hpx).2 hx
    obtain ⟨h3, h4⟩ := (window_iff Th H py y hTh hpy).2 hy
    exact ⟨⟨⟨h1, h2⟩, h3⟩, h4⟩

theorem tilePlan_partition (base : String) (W H Tw Th px py : Nat)
    (hTw : 1 ≤ Tw) (hTh : 1 ≤ Th) (hpx : px < W) (hpy : py < H) :
    (tilePlan base W H Tw Th).countP (fun t => covers t px py) = 1 := by
  unfold tilePlan
  rw [countP_flatMap_sum]
  have hrow : ∀ y ∈ List.range (cdiv H Th),
      ((List.range (cdiv W Tw)).map (fun x => mkTile base Tw Th W H x y)).countP
        (fun t => covers t px py) = if y = py / Th then 1 else 0 := by
    intro y hy
    rw [List.countP_map]
    by_cases hyj : y = py / Th
    · subst hyj
      rw [if_pos rfl]
      rw [List.countP_congr (q := fun x => decide (x = px / Tw)) ?_]
      · exact countP_range_eq (px / Tw) (cdiv W Tw) (lt_cdiv W Tw px hTw hpx)
      · intro x hx
        simp only [Function.comp, decide_eq_true_eq]
        rw [covers_mkTile_iff base W H Tw Th x (py / Th) px py hTw hTh hpx hpy]
        constructor
        · rintro ⟨h, -⟩; exact h
        · intro h; exact ⟨h, rfl⟩
    · rw [if_neg hyj]
      refine List.countP_eq_zero.2 ?_
      intro x hx hcov
      simp only [Function.comp] at hcov
      exact hyj ((covers_mkTile_iff base W H Tw Th x y px py hTw hTh hpx hpy).1 hcov).2
  rw [List.map_congr_left hrow]
  exact sum_map_ite_eq (py / Th) (cdiv H Th) (lt_cdiv H Th py hTh hpy)

theorem mem_tilePlan (base : String) (W H Tw Th : Nat) (t : Tile) :
    t ∈ tilePlan base W H Tw Th ↔
      ∃ x y, x < cdiv W Tw ∧ y < cdiv H Th ∧ t = mkTile base Tw Th W H x y := by
  unfold tilePlan
  constructor
  · intro h
    rcases List.mem_flatMap.1 h with ⟨y, hy, hrow⟩
    rcases List.mem_map.1 hrow with ⟨x, hx, rfl⟩
    exact ⟨x, y, List.mem_range.1 hx, List.mem_range.1 hy, rfl⟩
  · rintro ⟨x, y, hx, hy, rfl⟩
    exact List.mem_flatMap.2 ⟨y, List.mem_range.2 hy,
      List.mem_map.2 ⟨x, List.mem_range.2 hx, rfl⟩⟩

/-! ## C1: the resolver and the geocentric code 7019 -/

/-- C1 counterexample.  The claim says a 7019 candidate from whichever
evidence source is discarded by `_extract_epsg`.  It is not: when the
structured gdalinfo metadata carries `coordinateSystem.epsg = 7019`,
`_extract_epsg` returns 7019 directly — the 7019 filter guards only the
direct-GDAL-inspection source.  Concrete input: metadata with the epsg
field 7019, every other source empty. -/
theorem C1_counterexample :
    extractEpsg crsEnvNone { coordinateSystem := some { epsg := some 7019 } }
      (some "a.sid") = some 7019 := by
  decide

/-- C1 amended.  `_extract_epsg` discards 7019 candidates only within
the direct GDAL inspection source (never returning 7019 from that
source); a 7019 arriving from the structured metadata or a sidecar file
is returned as-is, and `process_sid` then rejects it via
`_validate_epsg`, so the CRS value the SID pipeline works with is never
7019. -/
theorem C1_amended :
    (∀ (env : CrsEnv) (info : GdalInfo) (path : Option String),
        sidResolvedEpsg env info path ≠ some 7019) ∧
    (∀ d : DirectInspection, directResult d ≠ some 7019) := by
  constructor
  · intro env info path h
    unfold sidResolvedEpsg at h
    rcases hE : extractEpsg env info path with _ | e
    · rw [hE] at h; simp at h
    · rw [hE] at h
      by_cases h7 : e = 7019
      · subst h7; simp [validateEpsg] at h
      · simp [validateEpsg, h7] at h
  · exact directResult_ne

/-- C1 witness: the amended statement evaluated at the counterexample's
input and at a direct inspection reporting 7019 everywhere. -/
theorem C1_witness :
    sidResolvedEpsg crsEnvNone { coordinateSystem := some { epsg := some 7019 } }
      (some "a.sid") ≠ some 7019 ∧
    directResult { opened := true, projcs := some 7019, geogcs := some 7019
                   unscoped := some 7019, autoCode := some 7019 } ≠ some 7019 :=
  ⟨C1_amended.1 crsEnvNone { coordinateSystem := some { epsg := some 7019 } } (some "a.sid"),
   C1_amended.2 _⟩

/-! ## C4: the quarantine reporter -/

/-- C4 counterexample.  The claim says the reporter appends a
timestamped message.  `_log_error` appends exactly `message + "\n"`:
for the message "boom" the appended line is "boom\n", which contains no
digit at all and hence no timestamp in any notation. -/
theorem C4_counterexample :
    logError shippedConfig "a" "boom" =
      [.mkdirs "/mnt/rawdata/pyarl/ErrorLogs",
       .logAppend "/mnt/rawdata/pyarl/ErrorLogs/a.log" "boom\n"] ∧
    ("boom\n").data.all (fun c => !c.isDigit) = true :=
  ⟨by decide, by decide⟩

/-- C4 amended.  On each irrecoverable failure the reporter appends the
failure message (plus a newline, with no timestamp) to `<base>.log` in
the error-log directory, creating that directory if absent, and then
copies exactly those files of the input's directory whose names start
with the input's base name and whose copy succeeds into the
failed-processing directory, swallowing individual copy failures. -/
theorem C4_amended (cfg : Config) (fs : FsEnv) (base msg src : String) :
    Event.logAppend (pathJoin cfg.ERROR_LOGS (base ++ ".log")) (msg ++ "\n")
        ∈ quarantine cfg fs base msg src ∧
    Event.mkdirs cfg.ERROR_LOGS ∈ quarantine cfg fs base msg src ∧
    Event.mkdirs cfg.FAILED_PROCESSING ∈ quarantine cfg fs base msg src ∧
    (∀ n, n ∈ fs.listdir (dirname src) →
        strStartsWith n (splitextStem (basename src)) = true →
        fs.copyOk n = true →
        Event.copyToFailed n ∈ quarantine cfg fs base msg src) ∧
    (∀ n, Event.copyToFailed n ∈ quarantine cfg fs base msg src →
        n ∈ fs.listdir (dirname src) ∧
        strStartsWith n (splitextStem (basename src)) = true ∧
        fs.copyOk n = true) := by
  refine ⟨by simp [quarantine, logError], by simp [quarantine, logError],
          by simp [quarantine, moveToFailed], ?_, ?_⟩
  · intro n hn hs hc
    exact List.mem_append_right _
      (List.mem_cons_of_mem _ (List.mem_filterMap.2 ⟨n, hn, by simp [hs, hc]⟩))
  · intro n hn
    unfold quarantine at hn
    rcases List.mem_append.1 hn with h | h
    · exact absurd h (by simp [logError])
    · simp only [moveToFailed] at h
      rcases List.mem_cons.1 h with h1 | h1
      · exact absurd h1 (by simp)
      · rcases List.mem_filterMap.1 h1 with ⟨m, hm, he⟩
        by_cases hc1 : strStartsWith m (splitextStem (basename src)) = true
        · rw [if_pos hc1] at he
          by_cases hc2 : fs.copyOk m = true
          · rw [if_pos hc2] at he
            obtain rfl : m = n := by simpa using he
            exact ⟨hm, hc1, hc2⟩
          · rw [if_neg hc2] at he; cases he
        · rw [if_neg hc1] at he; cases he

/-- C4 witness: the amended statement instantiated at a concrete
failure of `a.sid` whose directory holds a sibling `a.sdw`. -/
theorem C4_witness :
    Event.copyToFailed "a.sdw" ∈ quarantine shippedConfig fsAB "a" "boom" "a.sid" :=
  (C4_amended shippedConfig fsAB "a" "boom" "a.sid").2.2.2.1 "a.sdw"
    (by decide) (by decide) (by decide)

/-! ## C5: the bounding-box validator -/

/-- C5.  A bounding box with ordered extents is valid exactly when the
check is disabled or the box sits inside the envelope
`[-170, -50] x [15, 75]` with both spans strictly below one degree;
with `BBOX_CHECK = False` every box is valid.  The embedding
`bboxValid` is a pure function, so the no-I/O part of the claim is
carried by the type. -/
theorem C5_bbox_validator (cfg : Config) (b : BBox)
    (_h : b.minx ≤ b.maxx ∧ b.miny ≤ b.maxy) :
    (bboxValid cfg b = true ↔
      (cfg.BBOX_CHECK.getD true = false ∨
        (-170 ≤ b.minx ∧ b.maxx ≤ -50 ∧ 15 ≤ b.miny ∧ b.maxy ≤ 75 ∧
         b.maxx - b.minx < 1 ∧ b.maxy - b.miny < 1))) ∧
    (cfg.BBOX_CHECK = some false → ∀ b2 : BBox, bboxValid cfg b2 = true) := by
  constructor
  · unfold bboxValid
    split_ifs with h1 h2 h3
    · simp [h1]
    · constructor
      · intro hc; simp at hc
      · rintro (hc | ⟨c1, c2, c3, c4, c5, c6⟩)
        · exact absurd hc h1
        · rcases h2 with hv | hv | hv | hv <;> linarith
    · constructor
      · intro hc; simp at hc
      · rintro (hc | ⟨c1, c2, c3, c4, c5, c6⟩)
        · exact absurd hc h1
        · rcases h3 with hs | hs <;> linarith
    · push_neg at h2 h3
      constructor
      · intro _
        exact Or.inr ⟨h2.1, h2.2.1, h2.2.2.1, h2.2.2.2, h3.1, h3.2⟩
      · intro _; rfl
  · intro hb b2
    unfold bboxValid
    simp [hb]

/-- C5 witness: a degenerate box inside the envelope validates under
the shipped (check-enabled-by-default) configuration. -/
theorem C5_witness : bboxValid shippedConfig ⟨-100, 40, -100, 40⟩ = true :=
  ((C5_bbox_validator shippedConfig ⟨-100, 40, -100, 40⟩
      ⟨le_refl _, le_refl _⟩).1).mpr (Or.inr (by norm_num))

/-! ## C9: the extension guard -/

/-- C9.  A path not ending in `.sid` (case-insensitively) makes
`process_sid` raise `ValueError` with an empty side-effect trace, and a
path ending in neither `.tif` nor `.tiff` does the same for
`process_tiff`. -/
theorem C9_extension_guard :
    (∀ (cfg : Config) (env : SidEnv) (path outdir : String),
        strEndsWith (pyLower path) ".sid" = false →
        processSid cfg env path outdir =
          ⟨.error (.valueError ("Expected a .sid file, got: " ++ path)), []⟩) ∧
    (∀ (cfg : Config) (env : TiffEnv) (path outdir : String),
        (strEndsWith (pyLower path) ".tif" || strEndsWith (pyLower path) ".tiff") = false →
        processTiff cfg env path outdir =
          ⟨.error (.valueError ("Expected a .tif or .tiff file, got: " ++ path)), []⟩) := by
  constructor
  · intro cfg env path outdir h
    simp [processSid, h]
  · intro cfg env path outdir h
    simp [processTiff, h]

/-- C9 witness: both guards evaluated on `foo.txt`. -/
theorem C9_witness :
    processSid cfg4269 sidEnvGuessHit "foo.txt" "out" =
      ⟨.error (.valueError ("Expected a .sid file, got: " ++ "foo.txt")), []⟩ ∧
    processTiff cfg4269 tiffEnvUnresolved "foo.txt" "out" =
      ⟨.error (.valueError ("Expected a .tif or .tiff file, got: " ++ "foo.txt")), []⟩ :=
  ⟨C9_extension_guard.1 cfg4269 sidEnvGuessHit "foo.txt" "out" (by decide),
   C9_extension_guard.2 cfg4269 tiffEnvUnresolved "foo.txt" "out" (by decide)⟩

/-! ## C2: failure containment at the pipeline boundary -/

/-- C2 counterexample.  The claim says no exception from a per-file
failure propagates out of the pipeline function.  In `process_tiff`
there is no `try`/`except`: in a run whose input declares EPSG:4326 and
whose reprojection engine call fails, the engine error escapes
`process_tiff` unhandled. -/
theorem C2_counterexample :
    (processTiff cfg4269 tiffEnvWarpFails "a.tif" "out").result =
      .error (.engineError "warp failed") := by
  with_unfolding_all decide

/-- C2 amended.  `process_sid` catches every per-file failure inside
itself (for a `.sid` path it always returns normally, whatever the
engine does); `process_tiff` converts only the
no-tier-produced-a-valid-output failure into quarantine side effects
(exactly one error-log append whenever it returns `None`), while
exceptions raised inside its tiers propagate out of `process_tiff`
(the batch driver in `image_test.py` is what isolates them per
file). -/
theorem C2_amended :
    (∀ (cfg : Config) (env : SidEnv) (path outdir : String),
        strEndsWith (pyLower path) ".sid" = true →
        pyRaises (processSid cfg env path outdir).result = false) ∧
    (∀ (cfg : Config) (env : TiffEnv) (path outdir : String),
        (processTiff cfg env path outdir).result = .ok none →
        quarantineInvocations (processTiff cfg env path outdir).trace = 1) := by
  constructor
  · intro cfg env path outdir hExt
    unfold processSid
    rw [if_neg (by simp [hExt])]
    rcases hg : env.gdalinfoJson path with er | info
    · simp [pyRaises]
    · simp only []
      unfold sidFinish
      rcases hb : (sidBody cfg env path outdir (splitextStem (basename path))
          (sidResolvedEpsg env.crs info (some path))).result with e | tiles <;>
        simp [pyRaises]
  · intro cfg env path outdir h
    by_cases hExt :
      (strEndsWith (pyLower path) ".tif" || strEndsWith (pyLower path) ".tiff") = false
    · unfold processTiff at h
      rw [if_pos hExt] at h
      simp at h
    · unfold processTiff at h ⊢
      rw [if_neg hExt] at h ⊢
      rcases hp : primaryProcess cfg env path outdir with ⟨r1, t1⟩
      rw [hp] at h
      have hq1 : quarantineInvocations t1 = 0 := by
        have hx := qi_primary cfg env path outdir
        rw [hp] at hx
        exact hx
      rcases r1 with er | o
      · simp at h
      · rcases o with _ | ⟨jpg, aux⟩
        · simp only [] at h ⊢
          rw [secondStage_qi cfg env path outdir _ t1 h, hq1]
        · simp only [] at h ⊢
          rcases hgi : env.gdalInfo jpg with er | i <;> rw [hgi] at h <;>
            simp only [] at h ⊢
          · simp at h
          · by_cases hps : passes cfg i = true
            · rw [if_pos hps] at h; simp at h
            · rw [if_neg (by simp [hps])] at h ⊢
              rw [secondStage_qi cfg env path outdir _ t1 h, hq1]

/-- C2 witness: the amended statement at a SID run whose engine always
cooperates and at a TIFF run which exhausts both tiers. -/
theorem C2_witness :
    pyRaises (processSid cfg4269 sidEnvGuessHit "a.sid" "out").result = false ∧
    quarantineInvocations (processTiff cfg4269 tiffEnvUnresolved "a.tif" "out").trace = 1 :=
  ⟨C2_amended.1 cfg4269 sidEnvGuessHit "a.sid" "out" (by decide),
   C2_amended.2 cfg4269 tiffEnvUnresolved "a.tif" "out" (by with_unfolding_all decide)⟩

/-! ## C7: tier dispatch in the TIFF pipeline -/

/-- C7.  With a valid extension, when the primary tier completes: if it
could not resolve a CRS (returned no result) the secondary tier is
attempted; if it produced a JPEG whose bounding box validates, that
JPEG path is returned and the secondary tier is not attempted; if the
JPEG fails validation, the secondary tier is attempted. -/
theorem C7_tier_dispatch (cfg : Config) (env : TiffEnv) (path outdir : String)
    (hExt : (strEndsWith (pyLower path) ".tif" || strEndsWith (pyLower path) ".tiff") = true) :
    ((primaryProcess cfg env path outdir).1 = .ok none →
        Event.secondaryAttempt ∈ (processTiff cfg env path outdir).trace) ∧
    (∀ jpg aux i, (primaryProcess cfg env path outdir).1 = .ok (some (jpg, aux)) →
        env.gdalInfo jpg = .ok i →
        ((passes cfg i = true →
            (processTiff cfg env path outdir).result = .ok (some jpg) ∧
            Event.secondaryAttempt ∉ (processTiff cfg env path outdir).trace) ∧
         (passes cfg i = false →
            Event.secondaryAttempt ∈ (processTiff cfg env path outdir).trace))) := by
  rcases hp : primaryProcess cfg env path outdir with ⟨r1, t1⟩
  constructor
  · intro hnone
    have h1 : r1 = .ok none := by simpa using hnone
    subst h1
    have hrun : processTiff cfg env path outdir =
        tiffSecondStage cfg env path outdir (splitextStem (basename path)) t1 := by
      unfold processTiff
      rw [if_neg (by simp [hExt]), hp]
    rw [hrun]
    exact secondStage_mem cfg env path outdir _ t1
  · intro jpg aux i hsome hi
    have h1 : r1 = .ok (some (jpg, aux)) := by simpa using hsome
    subst h1
    constructor
    · intro hps
      have hrun : processTiff cfg env path outdir = ⟨.ok (some jpg), t1⟩ := by
        unfold processTiff
        rw [if_neg (by simp [hExt]), hp]
        simp only []
        rw [hi]
        simp only []
        rw [if_pos hps]
      rw [hrun]
      refine ⟨rfl, fun hm => ?_⟩
      exact primary_no_secondaryAttempt cfg env path outdir (by rw [hp]; exact hm)
    · intro hps
      have hrun : processTiff cfg env path outdir =
          tiffSecondStage cfg env path outdir (splitextStem (basename path)) t1 := by
        unfold processTiff
        rw [if_neg (by simp [hExt]), hp]
        simp only []
        rw [hi]
        simp only []
        rw [if_neg (by simp [hps])]
      rw [hrun]
      exact secondStage_mem cfg env path outdir _ t1

/-- C7 witness: a run whose primary JPEG validates returns it without
attempting the secondary tier. -/
theorem C7_witness :
    (processTiff cfg4269 tiffEnvPrimaryValid "a.tif" "out").result = .ok (some "out/a.jpg") ∧
    Event.secondaryAttempt ∉ (processTiff cfg4269 tiffEnvPrimaryValid "a.tif" "out").trace :=
  ((C7_tier_dispatch cfg4269 tiffEnvPrimaryValid "a.tif" "out" (by decide)).2 "out/a.jpg"
      "out/a.jpg.aux.xml" infoValid (by with_unfolding_all decide)
      (by with_unfolding_all decide)).1 (by with_unfolding_all decide)

/-! ## C8: guess exhaustion quarantines exactly once -/

/-- C8.  For a `.sid` input whose CRS resolves to unknown, whose direct
conversion succeeds but yields a bounding box that fails validation,
and whose guess loop exhausts without a validating candidate,
`process_sid` returns the empty list and the quarantine step runs
exactly once. -/
theorem C8_guess_exhaustion (cfg : Config) (env : SidEnv) (path outdir : String)
    (info0 info1 : GdalInfo)
    (hExt : strEndsWith (pyLower path) ".sid" = true)
    (hInfo : env.gdalinfoJson path = .ok info0)
    (hCrs : sidResolvedEpsg env.crs info0 (some path) = none)
    (hWhich : env.whichGdalTranslate = true)
    (hT : env.translateJpeg path
        (pathJoin outdir (splitextStem (basename path) ++ ".jpg")) 60 = .ok ())
    (hI1 : env.gdalinfoJson
        (pathJoin outdir (splitextStem (basename path) ++ ".jpg")) = .ok info1)
    (hBad : passes cfg info1 = false)
    (hGuess : (guessEpsgAndWarp cfg env path).1 = none) :
    (processSid cfg env path outdir).result = .ok [] ∧
    quarantineInvocations (processSid cfg env path outdir).trace = 1 := by
  have hconv : convertToJpeg env path outdir (splitextStem (basename path)) 60 =
      (.ok (pathJoin outdir (splitextStem (basename path) ++ ".jpg")),
       [.mkdirs outdir,
        .runTranslate path (pathJoin outdir (splitextStem (basename path) ++ ".jpg")) 60]) := by
    unfold convertToJpeg
    rw [if_neg (by simp [hWhich]), hT]
  rcases hg : guessEpsgAndWarp cfg env path with ⟨g, tg⟩
  have hgn : g = none := by
    rw [hg] at hGuess
    simpa using hGuess
  subst hgn
  have hqg : quarantineInvocations tg = 0 := by
    have hx := qi_guess cfg env path
    rw [hg] at hx
    exact hx
  have hbody : sidBody cfg env path outdir (splitextStem (basename path)) none =
      ⟨.error (.runtimeError "could not determine EPSG for SID"),
       [.mkdirs outdir,
        .runTranslate path (pathJoin outdir (splitextStem (basename path) ++ ".jpg")) 60] ++ tg,
       []⟩ := by
    unfold sidBody
    rw [hconv]
    simp only []
    rw [hI1]
    simp only []
    rw [if_neg (by simp [hBad]), hg]
  have hrun : processSid cfg env path outdir =
      sidFinish cfg env path (splitextStem (basename path))
        (sidBody cfg env path outdir (splitextStem (basename path))
          (sidResolvedEpsg env.crs info0 (some path))) := by
    unfold processSid
    rw [if_neg (by simp [hExt]), hInfo]
  rw [hrun, hCrs, hbody]
  unfold sidFinish
  simp only []
  refine ⟨by trivial, ?_⟩
  rw [qi_append, qi_append, qi_append, hqg, qi_quarantine]
  rfl

/-- C8 witness: the concrete exhausting run `a.sid`. -/
theorem C8_witness :
    (processSid cfg4269 sidEnvGuessMiss "a.sid" "out").result = .ok [] ∧
    quarantineInvocations (processSid cfg4269 sidEnvGuessMiss "a.sid" "out").trace = 1 :=
  C8_guess_exhaustion cfg4269 sidEnvGuessMiss "a.sid" "out" {} infoInvalid
    (by decide) (by decide) (by decide) (by decide) (by decide) (by decide)
    (by with_unfolding_all decide) (by with_unfolding_all decide)

/-! ## C10: the missing TARGET_EPSG attribute -/

/-- C10.  `config.py` defines no `TARGET_EPSG`, so for every valid
`.tif`/`.tiff` path the primary tier's temporary-filename f-string
raises `AttributeError`, which escapes `process_tiff`; the trace holds
at most the worldfile-sidecar copy and the temporary-directory cleanup
— no output JPEG, no error-log entry and no failed-processing copy. -/
theorem C10_missing_target (env : TiffEnv) (path outdir : String)
    (hExt : (strEndsWith (pyLower path) ".tif" || strEndsWith (pyLower path) ".tiff") = true) :
    shippedConfig.TARGET_EPSG = none ∧
    (processTiff shippedConfig env path outdir).result = .error (.attributeError "TARGET_EPSG") ∧
    ((processTiff shippedConfig env path outdir).trace.all (fun e =>
        match e with
        | .copyWorldfile _ _ => true
        | .rmtree _ => true
        | _ => false)) = true := by
  have hrun : processTiff shippedConfig env path outdir =
      ⟨.error (.attributeError "TARGET_EPSG"),
       ensureWorldfile env path ++ [.rmtree env.tmpdir]⟩ := by
    unfold processTiff
    rw [if_neg (by simp [hExt]), primary_shipped]
  refine ⟨rfl, by rw [hrun], ?_⟩
  rw [hrun]
  have h1 : (ensureWorldfile env path).all (fun e =>
      (match e with
       | Event.copyWorldfile _ _ => true
       | Event.rmtree _ => true
       | _ => false)) = true := by
    rw [List.all_eq_true]
    intro e he
    obtain ⟨s, d, rfl⟩ := ensure_events _ _ _ he
    rfl
  simp [List.all_append, h1]

/-- C10 witness: the shipped configuration on `a.tif`. -/
theorem C10_witness :
    shippedConfig.TARGET_EPSG = none ∧
    (processTiff shippedConfig tiffEnvUnresolved "a.tif" "out").result =
      .error (.attributeError "TARGET_EPSG") ∧
    ((processTiff shippedConfig tiffEnvUnresolved "a.tif" "out").trace.all (fun e =>
        match e with
        | .copyWorldfile _ _ => true
        | .rmtree _ => true
        | _ => false)) = true :=
  C10_missing_target tiffEnvUnresolved "a.tif" "out" (by decide)


/-! ## C3: cleanup of intermediate rasters -/

/-- C3 counterexample: in a run where no CRS is discoverable, the direct
conversion misses the envelope and the first guess candidate validates,
the candidate raster `/tg/a_guess_4269.tif` created inside the
`tempfile.mkdtemp()` directory is still present when `process_sid`
returns: neither `os.remove` nor `shutil.rmtree` ever touches the
returned candidate. -/
theorem C3_counterexample :
    leftoverRasters (processSid cfg4269 sidEnvGuessHit "a.sid" "out").trace
      = ["/tg/a_guess_4269.tif"] := by
  with_unfolding_all decide

/-- C3 amended: the only intermediate raster a `process_sid` run can
leave behind is a successful guess candidate inside the guess loop's
temporary directory; the `_warp.tif` temporary of the resolved-CRS path
is always removed by the `finally` clause, on success and failure
alike.  And the secondary TIFF tier removes both of its temporaries
(the `_corrected.tif` and the `_EPSG<target>.tif`) whenever it returns
a JPEG. -/
theorem C3_amended :
    (∀ (cfg : Config) (env : SidEnv) (path outdir : String),
      ∀ f ∈ leftoverRasters (processSid cfg env path outdir).trace,
        ∃ c ∈ guessCandidates,
          f = pathJoin env.mkdtemp
                (splitextStem (basename path) ++ "_guess_" ++ toString c ++ ".tif")) ∧
    (∀ (cfg : Config) (env : TiffEnv) (path outdir jpg aux : String) (t : Trace),
      secondaryProcess cfg env path outdir = (.ok (some (jpg, aux)), t) →
      ∃ T, cfg.TARGET_EPSG = some T ∧
        Event.removeFile (pathJoin outdir (splitextStem (basename path) ++ "_corrected.tif"))
          ∈ t ∧
        Event.removeFile (pathJoin outdir
            (splitextStem (basename path) ++ "_EPSG" ++ toString T ++ ".tif")) ∈ t) := by
  constructor
  · intro cfg env path outdir f hf
    unfold leftoverRasters at hf
    obtain ⟨hmem, hpred⟩ := List.mem_filter.1 hf
    rw [Bool.and_eq_true, Bool.not_eq_true', Bool.not_eq_true'] at hpred
    obtain ⟨hnc, -⟩ := hpred
    unfold processSid at hmem hnc
    by_cases hExt : strEndsWith (pyLower path) ".sid" = false
    · rw [if_pos hExt] at hmem
      simp [madeRasters] at hmem
    · rw [if_neg hExt] at hmem hnc
      rcases hg : env.gdalinfoJson path with er | info <;> rw [hg] at hmem hnc <;>
        simp only [] at hmem hnc
      · rw [made_quarantine] at hmem
        cases hmem
      · rcases hb : sidBody cfg env path outdir (splitextStem (basename path))
            (sidResolvedEpsg env.crs info (some path)) with ⟨r, btr, btmps⟩
        rw [hb] at hmem hnc
        unfold sidFinish at hmem hnc
        rcases r with er | tiles <;> simp only [] at hmem hnc
        · rw [made_append, made_append, made_quarantine, made_map_remove,
            List.append_nil, List.append_nil] at hmem
          rcases sidBody_made cfg env path outdir (splitextStem (basename path))
              (sidResolvedEpsg env.crs info (some path)) _ btr btmps hb f hmem with h | ⟨he, hin⟩
          · exact h
          · exfalso
            have hmemR : f ∈ removedFiles (btr ++ quarantine cfg env.fs (splitextStem
                (basename path)) (pyErrMsg er) path ++ btmps.map (fun f => Event.removeFile f)) := by
              rw [removed_append, removed_map_remove]
              exact List.mem_append_right _ hin
            exact Bool.false_ne_true (hnc.symm.trans (List.elem_iff.2 hmemR))
        · rw [made_append, made_map_remove, List.append_nil] at hmem
          rcases sidBody_made cfg env path outdir (splitextStem (basename path))
              (sidResolvedEpsg env.crs info (some path)) _ btr btmps hb f hmem with h | ⟨he, hin⟩
          · exact h
          · exfalso
            have hmemR : f ∈ removedFiles (btr ++ btmps.map (fun f => Event.removeFile f)) := by
              rw [removed_append, removed_map_remove]
              exact List.mem_append_right _ hin
            exact Bool.false_ne_true (hnc.symm.trans (List.elem_iff.2 hmemR))
  · intro cfg env path outdir jpg aux t hsec
    unfold secondaryProcess at hsec
    rcases hT : cfg.TARGET_EPSG with _ | T <;> rw [hT] at hsec <;> simp only [] at hsec
    · injection hsec with h1 h2; injection h1
    · refine ⟨T, rfl, ?_⟩
      rcases hsr : secondarySpatialRef env path with _ | sr <;> rw [hsr] at hsec <;>
        simp only [] at hsec
      · injection hsec with h1 h2
        injection h1 with h1
        injection h1
      · rcases hc : secondaryCorrect env path
            (pathJoin outdir (splitextStem (basename path) ++ "_corrected.tif")) with ⟨rc, tc⟩
        rw [hc] at hsec
        rcases rc with e | u <;> simp only [] at hsec
        · injection hsec with h1 h2; injection h1
        · rcases ht2 : secondaryTail cfg env
              (pathJoin outdir (splitextStem (basename path) ++ "_corrected.tif"))
              (pathJoin outdir (splitextStem (basename path) ++ "_EPSG" ++ toString T ++ ".tif"))
              (pathJoin outdir (splitextStem (basename path) ++ "_EPSG" ++ toString T ++ ".jpg"))
              with ⟨rt, tt⟩
          rw [ht2] at hsec
          simp only [] at hsec
          injection hsec with h1 h2
          subst h2
          have htt := secondaryTail_ok_trace cfg env
            (pathJoin outdir (splitextStem (basename path) ++ "_corrected.tif"))
            (pathJoin outdir (splitextStem (basename path) ++ "_EPSG" ++ toString T ++ ".tif"))
            (pathJoin outdir (splitextStem (basename path) ++ "_EPSG" ++ toString T ++ ".jpg"))
            (some (jpg, aux)) tt (by rw [ht2, h1])
          rw [htt]
          exact ⟨List.mem_append_right _ (by simp), List.mem_append_right _ (by simp)⟩

/-- C3 witness: both parts of the amended cleanup statement at concrete
runs — the leftover raster of the guess-hit SID run is a guess
candidate file, and the successful secondary TIFF run removes both of
its temporaries. -/
theorem C3_witness :
    (∃ c ∈ guessCandidates,
      "/tg/a_guess_4269.tif" =
        pathJoin sidEnvGuessHit.mkdtemp
          (splitextStem (basename "a.sid") ++ "_guess_" ++ toString c ++ ".tif")) ∧
    (∃ T, cfg4269.TARGET_EPSG = some T ∧
      Event.removeFile (pathJoin "out" (splitextStem (basename "a.tif") ++ "_corrected.tif"))
        ∈ (secondaryProcess cfg4269 tiffEnvAuxWkt "a.tif" "out").2 ∧
      Event.removeFile (pathJoin "out"
          (splitextStem (basename "a.tif") ++ "_EPSG" ++ toString T ++ ".tif"))
        ∈ (secondaryProcess cfg4269 tiffEnvAuxWkt "a.tif" "out").2) :=
  ⟨C3_amended.1 cfg4269 sidEnvGuessHit "a.sid" "out" "/tg/a_guess_4269.tif"
      (by with_unfolding_all decide),
   C3_amended.2 cfg4269 tiffEnvAuxWkt "a.tif" "out" "out/a_EPSG4269.jpg"
      "out/a_EPSG4269.jpg.aux.xml" (secondaryProcess cfg4269 tiffEnvAuxWkt "a.tif" "out").2
      (by with_unfolding_all rfl)⟩

/-! ## C6: the tiling grid -/

/-- C6: for a validated raster of width `W ≥ 1` and height `H ≥ 1` and
tile size `(Tw, Th)`, the tiling loop of `process_sid` emits exactly
`ceil(W/Tw) * ceil(H/Th)` tiles, in row-major order (the tile of grid
position `(x, y)` sits at index `y * nx + x`), named
`<base>_<col>_<row>.jpg` by their 1-based position, whose pixel windows
partition the raster exactly (each pixel is covered by exactly one
tile), interior tiles being `Tw`/`Th` wide/high and boundary tiles
`W mod Tw` (`Tw` when `Tw` divides `W`) and `H mod Th` likewise. -/
theorem C6_tiling (base : String) (W H Tw Th : Nat)
    (hW : 1 ≤ W) (hH : 1 ≤ H) (hTw : 1 ≤ Tw) (hTh : 1 ≤ Th) :
    (tilePlan base W H Tw Th).length = cdiv W Tw * cdiv H Th ∧
    (∀ x y, x < cdiv W Tw → y < cdiv H Th →
      (tilePlan base W H Tw Th)[y * cdiv W Tw + x]? = some (mkTile base Tw Th W H x y)) ∧
    (∀ px py, px < W → py < H →
      (tilePlan base W H Tw Th).countP (fun t => covers t px py) = 1) ∧
    (∀ t ∈ tilePlan base W H Tw Th,
      t.name = base ++ "_" ++ toString (t.x + 1) ++ "_" ++ toString (t.y + 1) ++ ".jpg" ∧
      t.xoff = t.x * Tw ∧ t.yoff = t.y * Th ∧
      (t.x + 1 < cdiv W Tw → t.w = Tw) ∧
      (t.x + 1 = cdiv W Tw → t.w = if W % Tw = 0 then Tw else W % Tw) ∧
      (t.y + 1 < cdiv H Th → t.h = Th) ∧
      (t.y + 1 = cdiv H Th → t.h = if H % Th = 0 then Th else H % Th)) := by
  refine ⟨?_, ?_, ?_, ?_⟩
  · unfold tilePlan
    rw [grid_length (fun x y => mkTile base Tw Th W H x y) (cdiv W Tw) (cdiv H Th)]
    exact Nat.mul_comm _ _
  · intro x y hx hy
    exact grid_get (fun x y => mkTile base Tw Th W H x y) (cdiv W Tw) (cdiv H Th) x y hx hy
  · intro px py hpx hpy
    exact tilePlan_partition base W H Tw Th px py hTw hTh hpx hpy
  · intro t ht
    rcases (mem_tilePlan base W H Tw Th t).1 ht with ⟨x, y, hx, hy, rfl⟩
    refine ⟨rfl, rfl, rfl, ?_, ?_, ?_, ?_⟩
    · intro hlt
      exact interior_min W Tw x hW hTw hlt
    · intro heq
      exact boundary_min W Tw x hW hTw heq
    · intro hlt
      exact interior_min H Th y hH hTh hlt
    · intro heq
      exact boundary_min H Th y hH hTh heq

/-- C6 witness: the tiling statement at the concrete grid of a 7x5
raster with 3x2 tiles (a 3x3 grid of 9 tiles; pixel (4,4) lies in
exactly one tile). -/
theorem C6_witness :
    ((1:Nat) ≤ 7 ∧ (1:Nat) ≤ 5 ∧ (1:Nat) ≤ 3 ∧ (1:Nat) ≤ 2) ∧
    (tilePlan "b" 7 5 3 2).length = cdiv 7 3 * cdiv 5 2 ∧
    (tilePlan "b" 7 5 3 2).countP (fun t => covers t 4 4) = 1 :=
  ⟨⟨by decide, by decide, by decide, by decide⟩,
   (C6_tiling "b" 7 5 3 2 (by decide) (by decide) (by decide) (by decide)).1,
   (C6_tiling "b" 7 5 3 2 (by decide) (by decide) (by decide) (by decide)).2.2.1 4 4
     (by decide) (by decide)⟩


end Arl
